import Mathlib

/-!
Verification of the solar ephemeris core of the BearWave repository
(`src/core/Combined.py`, duplicated in `src/generators/fig10_5mhz_generator.py`),
of the night-interval shading policy of `optional_plot`, and of the
signal-to-foF2 estimators of the analysis scripts.

Modelling conventions:

* Python `float` arithmetic is idealised: decimal literals are modelled as the
  exact rational/real numbers they denote.  The calendar arithmetic
  (`julian_day` and the calendar part of `jd_to_utc_datetime`) only takes
  floors/truncations of values that are far from integer boundaries relative
  to double-precision error, so the idealisation agrees with the float
  computation there; the trigonometric pipeline is modelled over `ℝ`.
* A Python `datetime` value is modelled by its timeline position: the integer
  number of seconds since 0000-12-31 00:00 (so 0001-01-01 00:00 is `86400`).
  Python's `datetime` range check (years 1..9999) and the `OverflowError` /
  `ValueError` raised by out-of-range construction, `+ timedelta` and
  `astimezone` are modelled by `Option`: `none` means the Python code raises.
* `int(...)` truncates toward zero, `round(...)` rounds half to even and
  float `%` is a floor-based remainder, as in Python.
-/

namespace SolarSpec

/-- A calendar date (year, month, day) as handed to the Python code as a
`datetime.date`; `datetime.date` itself is proleptic Gregorian with years
restricted to 1..9999. -/
structure Date where
  year : ℤ
  month : ℤ
  day : ℤ
deriving DecidableEq

/-- Gregorian leap-year test (as implemented by Python's `calendar.isleap` /
`datetime`): divisible by 4 and not by 100, or divisible by 400. -/
def isLeap (y : ℤ) : Bool :=
  (y % 4 == 0 && y % 100 != 0) || y % 400 == 0

/-- Number of days in a month of the proleptic Gregorian calendar. -/
def daysInMonth (y m : ℤ) : ℤ :=
  if m = 2 then (if isLeap y then 29 else 28)
  else if m = 4 ∨ m = 6 ∨ m = 9 ∨ m = 11 then 30
  else 31

/-- Validity of a date triple, exactly the check performed by the
`datetime.date` / `datetime.datetime` constructors. -/
def Date.valid (d : Date) : Prop :=
  1 ≤ d.year ∧ d.year ≤ 9999 ∧ 1 ≤ d.month ∧ d.month ≤ 12 ∧
    1 ≤ d.day ∧ d.day ≤ daysInMonth d.year d.month

instance : DecidablePred Date.valid := by
  intro d
  unfold Date.valid
  infer_instance

/-- Days from the start of the year to the start of month `m` (month lengths
of the Gregorian calendar; `leap` adds the Feb 29 day for months past
February). -/
def daysBeforeMonth (leap : Bool) (m : ℤ) : ℤ :=
  (if m ≤ 1 then 0 else if m ≤ 2 then 31 else if m ≤ 3 then 59
   else if m ≤ 4 then 90 else if m ≤ 5 then 120 else if m ≤ 6 then 151
   else if m ≤ 7 then 181 else if m ≤ 8 then 212 else if m ≤ 9 then 243
   else if m ≤ 10 then 273 else if m ≤ 11 then 304 else 334)
  + (if 3 ≤ m then (if leap then 1 else 0) else 0)

/-- Rata-die day number of a proleptic Gregorian date: day 1 is 0001-01-01.
This is the reference day count used to state calendar correctness. -/
def rdOf (d : Date) : ℤ :=
  365 * (d.year - 1) + (d.year - 1) / 4 - (d.year - 1) / 100 + (d.year - 1) / 400
    + daysBeforeMonth (isLeap d.year) d.month + d.day

/-- Python `int(...)` on a rational value: truncation toward zero. -/
def pyIntQ (q : ℚ) : ℤ :=
  if 0 ≤ q then ⌊q⌋ else -⌊-q⌋

/-- The `julian_day` function of `Combined.py` (identical in
`fig10_5mhz_generator.py`):

    def julian_day(d: date) -> float:
        y, m, D = d.year, d.month, d.day
        if m <= 2: y -= 1; m += 12
        A = floor(y/100)
        B = 2 - A + floor(A/4)
        return floor(365.25*(y + 4716)) + floor(30.6001*(m + 1)) + D + B - 1524.5
-/
def julian_day (d : Date) : ℚ :=
  let y : ℤ := if d.month ≤ 2 then d.year - 1 else d.year
  let m : ℤ := if d.month ≤ 2 then d.month + 12 else d.month
  let A : ℤ := ⌊(y : ℚ) / 100⌋
  let B : ℤ := 2 - A + ⌊(A : ℚ) / 4⌋
  ((⌊(365.25 : ℚ) * ((y : ℚ) + 4716)⌋ : ℤ) : ℚ)
    + ((⌊(30.6001 : ℚ) * ((m : ℚ) + 1)⌋ : ℤ) : ℚ)
    + (d.day : ℚ) + (B : ℚ) - 1524.5

/-- The reference Julian Day value at 12:00 UTC of a date: the (integer)
Julian Day Number.  Standard convention: JD 2451545.0 = 2000-01-01 12:00 UTC,
whose rata-die number is 730120, so JD at noon = rd + 1721425. -/
def jdNoon (d : Date) : ℚ := (rdOf d : ℚ) + 1721425

/-- The reference Julian Day value at 00:00 UTC of a date
(JD 2451544.5 = 2000-01-01 00:00 UTC). -/
def jdMidnight (d : Date) : ℚ := (rdOf d : ℚ) + 1721424.5

/-- Integer form of the `alpha` correction of `jd_to_utc_datetime`
(`int((Z - 1867216.25)/36524.25)` in the source, for `Z` in the Gregorian
range; the quotient is exact by multiplying numerator and denominator by 4). -/
def calAlpha (Z : ℤ) : ℤ := (4*Z - 7468865) / 146097

/-- Integer form of `A = Z + 1 + alpha - int(alpha/4)` of `jd_to_utc_datetime`. -/
def calA (Z : ℤ) : ℤ := Z + 1 + calAlpha Z - calAlpha Z / 4

/-- `B = A + 1524` of `jd_to_utc_datetime` (Gregorian branch). -/
def calB (Z : ℤ) : ℤ := calA Z + 1524

/-- Integer form of `C = int((B - 122.1)/365.25)` of `jd_to_utc_datetime`. -/
def calC (Z : ℤ) : ℤ := (20*calB Z - 2442) / 7305

/-- Integer form of `D = int(365.25 * C)` of `jd_to_utc_datetime`. -/
def calD (Z : ℤ) : ℤ := (1461*calC Z) / 4

/-- Integer form of `E = int((B - D)/30.6001)` of `jd_to_utc_datetime`. -/
def calE (Z : ℤ) : ℤ := (10000*(calB Z - calD Z)) / 306001

/-- Integer part of `day = B - D - int(30.6001*E) + F` of `jd_to_utc_datetime`. -/
def calDay (Z : ℤ) : ℤ := calB Z - calD Z - (306001*calE Z) / 10000

/-- `month = E - 1 if E < 14 else E - 13` of `jd_to_utc_datetime`. -/
def calMonth (Z : ℤ) : ℤ := if calE Z < 14 then calE Z - 1 else calE Z - 13

/-- `year = C - 4716 if month > 2 else C - 4715` of `jd_to_utc_datetime`. -/
def calYear (Z : ℤ) : ℤ := if 2 < calMonth Z then calC Z - 4716 else calC Z - 4715

/-- Calendar successor of a date (the reference "next day" function used to
state that consecutive Julian Day numbers decode to consecutive dates). -/
def nextDate (d : Date) : Date :=
  if d.day < daysInMonth d.year d.month then ⟨d.year, d.month, d.day + 1⟩
  else if d.month < 12 then ⟨d.year, d.month + 1, 1⟩
  else ⟨d.year + 1, 1, 1⟩


/-! ### Real-valued solar pipeline

The remaining functions of `Combined.py` compute with Python floats and the
`math` library.  They are modelled over `ℝ` with exact arithmetic: `sin`,
`cos`, `asin`, `acos`, `atan2` become the corresponding real functions,
float `%` becomes the exact floored modulo, `int(...)` truncation toward
zero and `round(...)` round-half-to-even on `ℝ`.  A `datetime` value is its
timeline second count `86400 * rd + s` where `rd` is the rata-die number of
its calendar date and `s` the second of the day; computations that raise
(`ValueError`, `OverflowError`) return `none`. -/

/-- Python `int(...)` on a real value: truncation toward zero. -/
noncomputable def pyInt (x : ℝ) : ℤ := if 0 ≤ x then ⌊x⌋ else -⌊-x⌋

/-- Python `round(...)` on a real value: nearest integer, ties to even. -/
noncomputable def pyRound (x : ℝ) : ℤ :=
  if x - ⌊x⌋ < 1/2 then ⌊x⌋
  else if 1/2 < x - ⌊x⌋ then ⌊x⌋ + 1
  else if ⌊x⌋ % 2 = 0 then ⌊x⌋ else ⌊x⌋ + 1

/-- Python float `a % b`: `a - b*floor(a/b)` (the sign follows `b`). -/
noncomputable def pyMod (a b : ℝ) : ℝ := a - b * (⌊a / b⌋ : ℝ)

/-- Python `math.atan2 y x`: the argument of the complex number `x + i*y`. -/
noncomputable def pyAtan2 (y x : ℝ) : ℝ := Complex.arg ⟨x, y⟩

/-- `deg2rad` of `Combined.py`. -/
noncomputable def deg2rad (d : ℝ) : ℝ := d * Real.pi / 180.0

/-- `rad2deg` of `Combined.py`. -/
noncomputable def rad2deg (r : ℝ) : ℝ := r * 180.0 / Real.pi

/-- `jd_to_jcent` of `Combined.py`. -/
noncomputable def jd_to_jcent (jd : ℝ) : ℝ := (jd - 2451545.0) / 36525.0

/-- `solar_coords` of `Combined.py`: the tuple `(M, lam, delta, alpha, eps)`. -/
noncomputable def solar_coords (jc : ℝ) : ℝ × ℝ × ℝ × ℝ × ℝ :=
  let M := deg2rad (pyMod (357.52911 + jc*(35999.05029 - 0.0001537*jc)) 360.0)
  let L0 := pyMod (280.46646 + jc*(36000.76983 + jc*0.0003032)) 360.0
  let C := deg2rad (1.914602 - jc*(0.004817 + 0.000014*jc)) * Real.sin M
    + deg2rad (0.019993 - 0.000101*jc) * Real.sin (2*M)
    + deg2rad 0.000289 * Real.sin (3*M)
  let lam := deg2rad (pyMod (L0 + rad2deg C) 360.0)
  let eps := deg2rad (23.439291 - jc*(0.0130042 + jc*(1.64e-7 - 5.04e-7*jc)))
  let delta := Real.arcsin (Real.sin eps * Real.sin lam)
  let alpha := pyAtan2 (Real.cos eps * Real.sin lam) (Real.cos lam)
  (M, lam, delta, alpha, eps)

/-- `hour_angle` of `Combined.py`: the cosine of the hour angle is clamped
to `[-1, 1]` and `acos` is returned.  The function is total: the float
divisor `cos(lat_rad)*cos(dec)` is never exactly `0.0` in the program
(`math.cos` never returns `0.0` for a finite double and the product cannot
underflow to zero), so the division never raises and is embedded with
Lean's total real division. -/
noncomputable def hour_angle (lat_rad dec altitude : ℝ) : ℝ :=
  let alt := deg2rad altitude
  Real.arccos (min 1.0 (max (-1.0)
    ((Real.sin alt - Real.sin lat_rad * Real.sin dec) /
      (Real.cos lat_rad * Real.cos dec))))

/-- `solar_transit_jd` of `Combined.py`. -/
noncomputable def solar_transit_jd (jd lw : ℝ) : ℝ :=
  let n : ℤ := pyRound (jd - 2451545.0009 - lw/(2*Real.pi))
  let Japprox := 2451545.0009 + lw/(2*Real.pi) + (n : ℝ)
  let M' := deg2rad (pyMod (357.5291 + 0.98560028*(Japprox - 2451545)) 360.0)
  let lam' := deg2rad (pyMod
    (280.160 + 1.915*Real.sin M' + 0.020*Real.sin (2*M') + 0.0003*Real.sin (3*M')) 360.0)
  2451545.0009 + lw/(2*Real.pi) + (n : ℝ) + 0.0053*Real.sin M' - 0.0069*Real.sin (2*lam')

/-- `alpha = int((Z - 1867216.25)/36524.25)` of `jd_to_utc_datetime`,
computed exactly over `ℚ` (the input `Z` is an integer). -/
def utcAlpha (Z : ℤ) : ℤ := pyIntQ (((Z : ℚ) - 1867216.25) / 36524.25)

/-- `A` of `jd_to_utc_datetime`: the Julian branch below `Z = 2299161`,
the Gregorian correction otherwise. -/
def utcA (Z : ℤ) : ℤ :=
  if Z < 2299161 then Z else Z + 1 + utcAlpha Z - pyIntQ ((utcAlpha Z : ℚ) / 4)

/-- `B = A + 1524` of `jd_to_utc_datetime`. -/
def utcB (Z : ℤ) : ℤ := utcA Z + 1524

/-- `C = int((B - 122.1)/365.25)` of `jd_to_utc_datetime`. -/
def utcC (Z : ℤ) : ℤ := pyIntQ (((utcB Z : ℚ) - 122.1) / 365.25)

/-- `D = int(365.25 * C)` of `jd_to_utc_datetime`. -/
def utcD (Z : ℤ) : ℤ := pyIntQ ((365.25 : ℚ) * (utcC Z : ℚ))

/-- `E = int((B - D)/30.6001)` of `jd_to_utc_datetime`. -/
def utcE (Z : ℤ) : ℤ := pyIntQ (((utcB Z : ℚ) - (utcD Z : ℚ)) / 30.6001)

/-- The integer part `B - D - int(30.6001*E)` of `day` in `jd_to_utc_datetime`
(the fractional part `F` is added separately). -/
def utcDayBase (Z : ℤ) : ℤ := utcB Z - utcD Z - pyIntQ ((30.6001 : ℚ) * (utcE Z : ℚ))

/-- `month = E - 1 if E < 14 else E - 13` of `jd_to_utc_datetime`. -/
def utcMonth (Z : ℤ) : ℤ := if utcE Z < 14 then utcE Z - 1 else utcE Z - 13

/-- `year = C - 4716 if month > 2 else C - 4715` of `jd_to_utc_datetime`. -/
def utcYear (Z : ℤ) : ℤ := if 2 < utcMonth Z then utcC Z - 4716 else utcC Z - 4715

/-- `jd_to_utc_datetime` of `Combined.py`, returning the timeline second
count of the resulting UTC `datetime`.  `none` models the exceptions: a
`ValueError` from the `datetime(year, month, day_int, ...)` constructor, or
an `OverflowError` when adding `timedelta(seconds=seconds)` leaves the
representable range 0001-01-01 00:00:00 .. 9999-12-31 23:59:59. -/
noncomputable def jd_to_utc_datetime (x : ℝ) : Option ℤ :=
  let J := x + 0.5
  let Z := pyInt J
  let day := (utcDayBase Z : ℝ) + (J - (Z : ℝ))
  let dayInt := pyInt day
  let seconds := pyRound ((day - (dayInt : ℝ)) * 86400)
  if (Date.mk (utcYear Z) (utcMonth Z) dayInt).valid then
    let ts := 86400 * rdOf ⟨utcYear Z, utcMonth Z, dayInt⟩ + seconds
    if 86400 ≤ ts ∧ ts ≤ 86400 * 3652059 + 86399 then some ts else none
  else none

/-- `sunrise_sunset_local` of `Combined.py` for a fixed-offset time zone of
`offset` seconds.  The returned pair is the timeline second count of the
naive local sunrise and sunset `datetime`s; `none` models any exception
(`ValueError`/`OverflowError` in `jd_to_utc_datetime` and in the
`astimezone` conversions, in the evaluation order of the source: sunrise is
converted and shifted first). -/
noncomputable def sunrise_sunset_local (d : Date) (lat_deg lon_deg : ℝ)
    (offset : ℤ) : Option (ℤ × ℤ) :=
  let jd := ((julian_day d : ℚ) : ℝ)
  let jc := jd_to_jcent jd
  let dec := (solar_coords jc).2.2.1
  let lw := deg2rad (-lon_deg)
  let H := hour_angle (deg2rad lat_deg) dec (-0.833)
  let Jtransit := solar_transit_jd jd lw
  let Jrise := Jtransit - rad2deg H / 360.0
  let Jset := Jtransit + rad2deg H / 360.0
  match jd_to_utc_datetime Jrise with
  | none => none
  | some tsr =>
    if 86400 ≤ tsr + offset ∧ tsr + offset ≤ 86400 * 3652059 + 86399 then
      match jd_to_utc_datetime Jset with
      | none => none
      | some tss =>
        if 86400 ≤ tss + offset ∧ tss + offset ≤ 86400 * 3652059 + 86399 then
          some (tsr + offset, tss + offset)
        else none
    else none

/-! ### Night-interval builder of `optional_plot`

The shading loop of `optional_plot` is modelled discretely: a calendar date
is its rata-die number, a plot timestamp is a timeline second count, and the
sunrise/sunset table `sun` maps each date to its optional pair.  `axvspan`
calls are collected as a list of intervals in emission order. -/

/-- An `axvspan l r` emission guarded by `left < right`. -/
def clampSpan (l r : ℤ) : List (ℤ × ℤ) := if l < r then [(l, r)] else []

/-- One iteration of the shading loop of `optional_plot` for date `d` whose
successor in the sorted date list is `next?` (`none` at the last date);
`single` records `len(dates_sorted) == 1`. -/
def nightBody (sun : ℤ → Option ℤ × Option ℤ) (startT endT : ℤ)
    (single : Bool) (d : ℤ) (next? : Option ℤ) : List (ℤ × ℤ) :=
  let sr := (sun d).1
  let ss := (sun d).2
  let main : List (ℤ × ℤ) :=
    match ss, next? with
    | some s, some d' =>
      match (sun d').1 with
      | some r =>
        if d' - d ≤ 1 then clampSpan (max s startT) (min r endT)
        else
          clampSpan (max s startT) (min (86400 * (d + 1)) endT)
            ++ clampSpan (max (86400 * d') startT) (min r endT)
      | none => []
    | _, _ => []
  let extra : List (ℤ × ℤ) :=
    if single then
      (match sr with
       | some r => clampSpan startT (min r endT)
       | none => [])
        ++ (match ss with
            | some s => clampSpan (max s startT) endT
            | none => [])
    else []
  main ++ extra

/-- The shading loop of `optional_plot` over the tail of the sorted date
list, with `single` fixed from the full list. -/
def buildNightGo (sun : ℤ → Option ℤ × Option ℤ) (startT endT : ℤ)
    (single : Bool) : List ℤ → List (ℤ × ℤ)
  | [] => []
  | [d] => nightBody sun startT endT single d none
  | d :: d' :: rest =>
    nightBody sun startT endT single d (some d')
      ++ buildNightGo sun startT endT single (d' :: rest)

/-- All night intervals emitted by `optional_plot` for the sorted date list
`dates`, the sunrise/sunset table `sun` and the plot window `[startT, endT]`. -/
def buildNightIntervals (sun : ℤ → Option ℤ × Option ℤ) (startT endT : ℤ)
    (dates : List ℤ) : List (ℤ × ℤ) :=
  buildNightGo sun startT endT (dates.length == 1) dates

/-! ### Signal-to-foF2 estimators -/

/-- `np.clip(a, lo, hi)` on scalars. -/
def npClip (a lo hi : ℚ) : ℚ := min hi (max a lo)

/-- `calculate_fof2_from_signal` of `darwin_april15_fof2_7years.py`:
`np.clip(9.0 + signal_db/12.0, 3.0, 15.0)`. -/
def calculate_fof2_from_signal (signal_db : ℚ) : ℚ :=
  npClip (9.0 + signal_db / 12.0) 3.0 15.0

/-- `calculate_fof2_from_signal` of `guam_fof2_april.py`:
`np.clip(10.5 + signal_db/10.0, 4.0, 18.0)`. -/
def calculate_fof2_from_signal_guam (signal_db : ℚ) : ℚ :=
  npClip (10.5 + signal_db / 10.0) 4.0 18.0

namespace Fig10

/-! ### The duplicated solar calculator of `fig10_5mhz_generator.py`

`fig10_5mhz_generator.py` carries its own copy of the nine solar functions.
Each is embedded here again, independently, from that file's source text
(which differs from `Combined.py` only in comments and line breaking). -/

/-- `deg2rad` of `fig10_5mhz_generator.py`. -/
noncomputable def deg2rad (d : ℝ) : ℝ := d * Real.pi / 180.0

/-- `rad2deg` of `fig10_5mhz_generator.py`. -/
noncomputable def rad2deg (r : ℝ) : ℝ := r * 180.0 / Real.pi

/-- `julian_day` of `fig10_5mhz_generator.py`. -/
def julian_day (d : Date) : ℚ :=
  let y : ℤ := if d.month ≤ 2 then d.year - 1 else d.year
  let m : ℤ := if d.month ≤ 2 then d.month + 12 else d.month
  let A : ℤ := ⌊(y : ℚ) / 100⌋
  let B : ℤ := 2 - A + ⌊(A : ℚ) / 4⌋
  ((⌊(365.25 : ℚ) * ((y : ℚ) + 4716)⌋ : ℤ) : ℚ)
    + ((⌊(30.6001 : ℚ) * ((m : ℚ) + 1)⌋ : ℤ) : ℚ)
    + (d.day : ℚ) + (B : ℚ) - 1524.5

/-- `jd_to_jcent` of `fig10_5mhz_generator.py`. -/
noncomputable def jd_to_jcent (jd : ℝ) : ℝ := (jd - 2451545.0) / 36525.0

/-- `solar_coords` of `fig10_5mhz_generator.py`. -/
noncomputable def solar_coords (jc : ℝ) : ℝ × ℝ × ℝ × ℝ × ℝ :=
  let M := SolarSpec.deg2rad (pyMod (357.52911 + jc*(35999.05029 - 0.0001537*jc)) 360.0)
  let L0 := pyMod (280.46646 + jc*(36000.76983 + jc*0.0003032)) 360.0
  let C := SolarSpec.deg2rad (1.914602 - jc*(0.004817 + 0.000014*jc)) * Real.sin M
    + SolarSpec.deg2rad (0.019993 - 0.000101*jc) * Real.sin (2*M)
    + SolarSpec.deg2rad 0.000289 * Real.sin (3*M)
  let lam := SolarSpec.deg2rad (pyMod (L0 + SolarSpec.rad2deg C) 360.0)
  let eps := SolarSpec.deg2rad (23.439291 - jc*(0.0130042 + jc*(1.64e-7 - 5.04e-7*jc)))
  let delta := Real.arcsin (Real.sin eps * Real.sin lam)
  let alpha := pyAtan2 (Real.cos eps * Real.sin lam) (Real.cos lam)
  (M, lam, delta, alpha, eps)

/-- `hour_angle` of `fig10_5mhz_generator.py` (total for the same reason
as the `Combined.py` copy). -/
noncomputable def hour_angle (lat_rad dec altitude : ℝ) : ℝ :=
  let alt := SolarSpec.deg2rad altitude
  Real.arccos (min 1.0 (max (-1.0)
    ((Real.sin alt - Real.sin lat_rad * Real.sin dec) /
      (Real.cos lat_rad * Real.cos dec))))

/-- `solar_transit_jd` of `fig10_5mhz_generator.py`. -/
noncomputable def solar_transit_jd (jd lw : ℝ) : ℝ :=
  let n : ℤ := pyRound (jd - 2451545.0009 - lw/(2*Real.pi))
  let Japprox := 2451545.0009 + lw/(2*Real.pi) + (n : ℝ)
  let M' := SolarSpec.deg2rad (pyMod (357.5291 + 0.98560028*(Japprox - 2451545)) 360.0)
  let lam' := SolarSpec.deg2rad (pyMod
    (280.160 + 1.915*Real.sin M' + 0.020*Real.sin (2*M') + 0.0003*Real.sin (3*M')) 360.0)
  2451545.0009 + lw/(2*Real.pi) + (n : ℝ) + 0.0053*Real.sin M' - 0.0069*Real.sin (2*lam')

/-- `jd_to_utc_datetime` of `fig10_5mhz_generator.py`. -/
noncomputable def jd_to_utc_datetime (x : ℝ) : Option ℤ :=
  let J := x + 0.5
  let Z := pyInt J
  let day := (utcDayBase Z : ℝ) + (J - (Z : ℝ))
  let dayInt := pyInt day
  let seconds := pyRound ((day - (dayInt : ℝ)) * 86400)
  if (Date.mk (utcYear Z) (utcMonth Z) dayInt).valid then
    let ts := 86400 * rdOf ⟨utcYear Z, utcMonth Z, dayInt⟩ + seconds
    if 86400 ≤ ts ∧ ts ≤ 86400 * 3652059 + 86399 then some ts else none
  else none

/-- `sunrise_sunset_local` of `fig10_5mhz_generator.py`. -/
noncomputable def sunrise_sunset_local (d : Date) (lat_deg lon_deg : ℝ)
    (offset : ℤ) : Option (ℤ × ℤ) :=
  let jd := ((julian_day d : ℚ) : ℝ)
  let jc := jd_to_jcent jd
  let dec := (solar_coords jc).2.2.1
  let lw := SolarSpec.deg2rad (-lon_deg)
  let H := hour_angle (SolarSpec.deg2rad lat_deg) dec (-0.833)
  let Jtransit := solar_transit_jd jd lw
  let Jrise := Jtransit - SolarSpec.rad2deg H / 360.0
  let Jset := Jtransit + SolarSpec.rad2deg H / 360.0
  match jd_to_utc_datetime Jrise with
  | none => none
  | some tsr =>
    if 86400 ≤ tsr + offset ∧ tsr + offset ≤ 86400 * 3652059 + 86399 then
      match jd_to_utc_datetime Jset with
      | none => none
      | some tss =>
        if 86400 ≤ tss + offset ∧ tss + offset ≤ 86400 * 3652059 + 86399 then
          some (tsr + offset, tss + offset)
        else none
    else none

end Fig10


theorem floor_intCast_div (a b : ℤ) (hb : 0 < b) :
    ⌊((a : ℚ) / (b : ℚ))⌋ = a / b := by
  obtain ⟨n, rfl⟩ : ∃ n : ℕ, b = (n : ℤ) := ⟨b.toNat, (Int.toNat_of_nonneg hb.le).symm⟩
  have := Rat.floor_intCast_div_natCast a n
  exact_mod_cast this

theorem isLeap_true_iff (y : ℤ) :
    isLeap y = true ↔ (y % 4 = 0 ∧ y % 100 ≠ 0) ∨ y % 400 = 0 := by
  simp [isLeap, Bool.or_eq_true, Bool.and_eq_true, beq_iff_eq, bne_iff_ne]

theorem isLeap_false_iff (y : ℤ) :
    isLeap y = false ↔ ¬ ((y % 4 = 0 ∧ y % 100 ≠ 0) ∨ y % 400 = 0) := by
  rw [← isLeap_true_iff]
  simp

/-- Casting helper used to move the half-integer Julian Day identity to `ℤ`. -/
theorem jd_cast_iff (a b c e D : ℤ) :
    ((a : ℚ)) + (b : ℚ) + (D : ℚ) + (c : ℚ) - 1524.5 = ((e : ℚ)) + 1721424.5 ↔
      a + b + D + c = e + 1722949 := by
  constructor
  · intro hq
    have h2 : ((a + b + D + c : ℤ) : ℚ) = ((e + 1722949 : ℤ) : ℚ) := by
      push_cast
      linarith
    exact_mod_cast h2
  · intro hz
    have h2 : ((a + b + D + c : ℤ) : ℚ) = ((e + 1722949 : ℤ) : ℚ) := by exact_mod_cast hz
    push_cast at h2
    linarith

/-- Forward calendar correctness of the source `julian_day`: on every valid
date it returns the Julian Day value of 00:00 UTC of that date. -/
theorem julian_day_eq_jdMidnight (d : Date) (h : d.valid) :
    julian_day d = jdMidnight d := by
  obtain ⟨hy1, hy2, hm1, hm2, hd1, hd2⟩ := h
  clear hd2
  unfold julian_day jdMidnight rdOf
  obtain ⟨y, m, D⟩ := d
  simp only at hy1 hy2 hm1 hm2 hd1 ⊢
  have h365 : ∀ t : ℤ, ⌊(365.25 : ℚ) * ((t : ℚ) + 4716)⌋ = 365 * t + t / 4 + 1722519 := by
    intro t
    rw [show (365.25 : ℚ) * ((t : ℚ) + 4716) = ((1461 * (t + 4716) : ℤ) : ℚ) / ((4 : ℤ) : ℚ) by
      push_cast; ring]
    rw [floor_intCast_div _ 4 (by norm_num)]
    omega
  have h306 : ∀ t : ℤ, ⌊(30.6001 : ℚ) * ((t : ℚ) + 1)⌋ = (306001 * (t + 1)) / 10000 := by
    intro t
    rw [show (30.6001 : ℚ) * ((t : ℚ) + 1) = ((306001 * (t + 1) : ℤ) : ℚ) / ((10000 : ℤ) : ℚ) by
      push_cast; ring]
    exact floor_intCast_div _ 10000 (by norm_num)
  have hA : ∀ t : ℤ, ⌊(t : ℚ) / 100⌋ = t / 100 := by
    intro t
    rw [show ((100 : ℚ)) = ((100 : ℤ) : ℚ) by norm_num]
    exact floor_intCast_div _ 100 (by norm_num)
  have hA4 : ∀ t : ℤ, ⌊(t : ℚ) / 4⌋ = t / 4 := by
    intro t
    rw [show ((4 : ℚ)) = ((4 : ℤ) : ℚ) by norm_num]
    exact floor_intCast_div _ 4 (by norm_num)
  by_cases hm : m ≤ 2
  · simp only [hm, if_true, h365, h306, hA, hA4, jd_cast_iff]
    interval_cases m <;>
      simp only [daysBeforeMonth] <;> norm_num <;> omega
  · simp only [hm, if_false, h365, h306, hA, hA4, jd_cast_iff]
    have hm3 : 3 ≤ m := by omega
    rcases Bool.eq_false_or_eq_true (isLeap y) with hL | hL <;>
      [(have hLc : ((y % 4 = 0 ∧ y % 100 ≠ 0) ∨ y % 400 = 0) := (isLeap_true_iff y).mp hL);
       (have hLc : ¬ ((y % 4 = 0 ∧ y % 100 ≠ 0) ∨ y % 400 = 0) := (isLeap_false_iff y).mp hL)] <;>
      interval_cases m <;>
      simp only [daysBeforeMonth, hL] <;> norm_num <;> omega

theorem calCore (yp w r Z alpha A B C D L : ℤ)
    (hy : 1582 ≤ yp) (hy2 : yp ≤ 9999) (hw1 : 60 + L ≤ w)
    (hw2 : w ≤ 424 ∨ (w = 425 ∧ (((yp % 4 = 0 ∧ yp % 100 ≠ 0) ∨ yp % 400 = 0) ∨
      (((yp+1) % 4 = 0 ∧ (yp+1) % 100 ≠ 0) ∨ (yp+1) % 400 = 0))))
    (hr : r = 365*(yp-1) + (yp-1)/4 - (yp-1)/100 + (yp-1)/400 + w)
    (hZ : Z = r + 1721425)
    (halpha : alpha = (4*Z - 7468865)/146097)
    (hA : A = Z + 1 + alpha - alpha/4)
    (hB : B = A + 1524)
    (hC : C = (20*B - 2442)/7305)
    (hD : D = 365*C + C/4)
    (hLb : (isLeap yp = true ∧ L = 1) ∨ (isLeap yp = false ∧ L = 0)) :
    alpha = yp/100 - 4 ∧ C = yp + 4716 ∧ B - D = 63 + w - L := by
  have hLm : ((yp % 4 = 0 ∧ yp % 100 ≠ 0) ∨ yp % 400 = 0) ∧ L = 1 ∨
      (¬ ((yp % 4 = 0 ∧ yp % 100 ≠ 0) ∨ yp % 400 = 0)) ∧ L = 0 := by
    rcases hLb with ⟨hL, hL1⟩ | ⟨hL, hL1⟩
    · exact Or.inl ⟨(isLeap_true_iff yp).mp hL, hL1⟩
    · refine Or.inr ⟨?_, hL1⟩
      intro hc
      rw [← isLeap_true_iff] at hc
      rw [hL] at hc
      cases hc
  clear hLb
  obtain ⟨a, c, s, hy4, hc0, hc1, hs0, hs1⟩ :
      ∃ a c s, yp = 400*a + 100*c + s ∧ 0 ≤ c ∧ c < 4 ∧ 0 ≤ s ∧ s < 100 :=
    ⟨yp/400, (yp % 400)/100, (yp % 400) % 100, by omega, by omega, by omega, by omega, by omega⟩
  subst hy4
  have hLs : (s % 4 = 0 ∧ s ≠ 0 ∧ L = 1) ∨ (s = 0 ∧ c = 0 ∧ L = 1) ∨
      (¬ (s % 4 = 0 ∧ (s ≠ 0 ∨ c = 0)) ∧ L = 0) := by
    clear hr hZ halpha hA hB hC hD; omega
  clear hLm
  have hd4 : (400*a + 100*c + s - 1)/4 = 100*a + 25*c + (s-1)/4 := by
    clear hr hZ halpha hA hB hC hD; omega
  have hd100 : (400*a + 100*c + s - 1)/100 = 4*a + c + (s-1)/100 := by
    clear hr hZ halpha hA hB hC hD; omega
  have hd400 : (400*a + 100*c + s - 1)/400 = a + (100*c + s - 1)/400 := by
    clear hr hZ halpha hA hB hC hD; omega
  have hy100 : (400*a + 100*c + s)/100 = 4*a + c := by
    clear hr hZ halpha hA hB hC hD; omega
  have hrv : r = 146097*a + 36524*c + 365*s + (s-1)/4 - (s-1)/100 + (100*c+s-1)/400
      - 365 + w := by
    clear hZ halpha hA hB hC hD; omega
  have hsplit : 4*Z - 7468865 = 584388*a + 146097*c - 584388 +
      (-c + 1460*s + 4*((s-1)/4) - 4*((s-1)/100) + 4*((100*c+s-1)/400) + 4*w - 237) := by
    clear halpha hA hB hC hD hr; omega
  have hrest0 : 0 ≤ -c + 1460*s + 4*((s-1)/4) - 4*((s-1)/100) + 4*((100*c+s-1)/400)
      + 4*w - 237 := by
    clear hr hZ halpha hA hB hC hD hrv hsplit; omega
  have hrest1 : -c + 1460*s + 4*((s-1)/4) - 4*((s-1)/100) + 4*((100*c+s-1)/400)
      + 4*w - 237 < 146097 := by
    clear hr hZ halpha hA hB hC hD hrv hsplit; omega
  have h1 : alpha = 4*a + c - 4 := by
    clear hA hB hC hD hr hZ hrv; omega
  have h1b : alpha/4 = a - 1 := by
    clear hr hZ halpha hA hB hC hD hrv; omega
  have hBv : B = 146100*a + 36525*c + 365*s + (s-1)/4 - (s-1)/100 + (100*c+s-1)/400
      + 1722582 + w := by
    clear halpha hC hD hr; omega
  have hsplit2 : 20*B - 2442 = 7305*(400*a + 100*c + s + 4716) +
      (-5*s + 20*((s-1)/4) - 20*((s-1)/100) + 20*((100*c+s-1)/400) + 20*w - 1182) := by
    clear halpha hC hD hr hZ hA hrv hsplit hrest0 hrest1 h1 h1b; omega
  have hrest2a : 0 ≤ -5*s + 20*((s-1)/4) - 20*((s-1)/100) + 20*((100*c+s-1)/400)
      + 20*w - 1182 := by
    clear hr hZ halpha hA hB hC hD hrv hsplit hrest0 hrest1 h1 h1b hBv hsplit2; omega
  have hrest2b : -5*s + 20*((s-1)/4) - 20*((s-1)/100) + 20*((100*c+s-1)/400)
      + 20*w - 1182 < 7305 := by
    clear hr hZ halpha hA hB hC hD hrv hsplit hrest0 hrest1 h1 h1b hBv hsplit2; omega
  have h2 : C = 400*a + 100*c + s + 4716 := by
    clear halpha hD hr hZ hA hB hrv hsplit hrest0 hrest1 h1 h1b hBv; omega
  have h2b : C/4 = 100*a + 25*c + 1179 + s/4 := by
    clear hr hZ halpha hA hB hC hD hrv hBv; omega
  refine ⟨by omega, by omega, ?_⟩
  clear hr hZ halpha hA hB hC hrv hy hy2 hd4 hd100 hd400 hy100 h1 h1b
  clear hsplit hrest0 hrest1 hsplit2 hrest2a hrest2b hw1 hw2
  omega

/-- Month/day extraction of `jd_to_utc_datetime` (months March..December):
`E = int((B-D)/30.6001)` recovers the month and `B - D - int(30.6001*E)`
recovers the day, for the values `B - D` produces on real dates. -/
theorem decodeE (y bd m dd : ℤ) (hm : 3 ≤ m) (hm2 : m ≤ 12) (hdd : 1 ≤ dd)
    (hdm : dd ≤ daysInMonth y m)
    (hbd : bd = 63 + daysBeforeMonth false m + dd) :
    (10000*bd)/306001 = m + 1 ∧ bd - (306001*((10000*bd)/306001))/10000 = dd := by
  unfold daysBeforeMonth at hbd
  unfold daysInMonth at hdm
  interval_cases m <;> norm_num at hbd hdm <;> omega

/-- Decoding lemma for months March..December: the Gregorian branch of the
calendar extraction of `jd_to_utc_datetime`, applied to the integer Julian
Day value of a valid date, recovers that date. -/
theorem calDecode_ge3 (y m dd : ℤ) (hy : 1582 ≤ y) (hy2 : y ≤ 9999)
    (hm : 3 ≤ m) (hm2 : m ≤ 12) (hdd : 1 ≤ dd) (hdd2 : dd ≤ daysInMonth y m) :
    calYear (rdOf ⟨y, m, dd⟩ + 1721425) = y ∧
      calMonth (rdOf ⟨y, m, dd⟩ + 1721425) = m ∧
      calDay (rdOf ⟨y, m, dd⟩ + 1721425) = dd := by
  obtain ⟨r, hrdef⟩ : ∃ r, r = rdOf ⟨y, m, dd⟩ := ⟨_, rfl⟩
  obtain ⟨Z, hZdef⟩ : ∃ Z, Z = r + 1721425 := ⟨_, rfl⟩
  rw [← hrdef, ← hZdef]
  have hD' : calD Z = 365*calC Z + calC Z / 4 := by
    unfold calD
    omega
  have hdbm : 59 ≤ daysBeforeMonth false m ∧ daysBeforeMonth false m ≤ 334 := by
    unfold daysBeforeMonth
    interval_cases m <;> norm_num
  have hdm31 : dd ≤ 31 := by
    unfold daysInMonth at hdd2
    interval_cases m <;> omega
  have hcore : calC Z = y + 4716 ∧ calB Z - calD Z = 63 + daysBeforeMonth false m + dd := by
    rcases Bool.eq_false_or_eq_true (isLeap y) with hb | hb
    case inl =>
      have hLc : ((y % 4 = 0 ∧ y % 100 ≠ 0) ∨ y % 400 = 0) := (isLeap_true_iff y).mp hb
      have hr : r = 365*(y-1) + (y-1)/4 - (y-1)/100 + (y-1)/400
          + (daysBeforeMonth false m + 1 + dd) := by
        rw [hrdef]
        unfold rdOf
        rw [hb]
        unfold daysBeforeMonth
        interval_cases m <;> norm_num <;> omega
      obtain ⟨hc1, hc2, hc3⟩ := calCore y (daysBeforeMonth false m + 1 + dd) r Z
        (calAlpha Z) (calA Z) (calB Z) (calC Z) (calD Z) 1 hy hy2
        (by omega) (by omega) hr hZdef rfl rfl rfl rfl hD' (Or.inl ⟨hb, rfl⟩)
      exact ⟨hc2, by omega⟩
    case inr =>
      have hLc : ¬ ((y % 4 = 0 ∧ y % 100 ≠ 0) ∨ y % 400 = 0) := (isLeap_false_iff y).mp hb
      have hr : r = 365*(y-1) + (y-1)/4 - (y-1)/100 + (y-1)/400
          + (daysBeforeMonth false m + 0 + dd) := by
        rw [hrdef]
        unfold rdOf
        rw [hb]
        unfold daysBeforeMonth
        interval_cases m <;> norm_num <;> omega
      obtain ⟨hc1, hc2, hc3⟩ := calCore y (daysBeforeMonth false m + 0 + dd) r Z
        (calAlpha Z) (calA Z) (calB Z) (calC Z) (calD Z) 0 hy hy2
        (by omega) (by omega) hr hZdef rfl rfl rfl rfl hD' (Or.inr ⟨hb, rfl⟩)
      exact ⟨hc2, by omega⟩
  obtain ⟨hc2, hBD⟩ := hcore
  have hdec := decodeE y (calB Z - calD Z) m dd hm hm2 hdd hdd2 hBD
  have hE : calE Z = m + 1 := hdec.1
  have hDay : calDay Z = dd := by
    have h2 := hdec.2
    rw [show (10000*(calB Z - calD Z))/306001 = calE Z from rfl] at h2
    exact h2
  have hMon : calMonth Z = m := by
    unfold calMonth
    rw [hE, if_pos (by omega)]
    omega
  refine ⟨?_, hMon, hDay⟩
  unfold calYear
  rw [hMon, if_pos (by omega), hc2]
  omega

set_option maxHeartbeats 2000000 in
/-- Decoding lemma for January and February: the algorithm counts them as
months 13/14 of the previous year, and the final `month > 2` test restores
the real year. -/
theorem calDecode_le2 (y m dd : ℤ) (hy : 1583 ≤ y) (hy2 : y ≤ 9999)
    (hm : 1 ≤ m) (hm2 : m ≤ 2) (hdd : 1 ≤ dd) (hdd2 : dd ≤ daysInMonth y m) :
    calYear (rdOf ⟨y, m, dd⟩ + 1721425) = y ∧
      calMonth (rdOf ⟨y, m, dd⟩ + 1721425) = m ∧
      calDay (rdOf ⟨y, m, dd⟩ + 1721425) = dd := by
  have hLiffy : isLeap y = true ↔ ((y % 4 = 0 ∧ y % 100 ≠ 0) ∨ y % 400 = 0) :=
    isLeap_true_iff y
  have hLiffy2 : isLeap y = false ↔ ¬ ((y % 4 = 0 ∧ y % 100 ≠ 0) ∨ y % 400 = 0) :=
    isLeap_false_iff y
  rcases (show m = 1 ∨ m = 2 by omega) with hmc | hmc <;> subst hmc
  case inl =>
    have hdd31 : dd ≤ 31 := by
      unfold daysInMonth at hdd2
      norm_num at hdd2
      exact hdd2
    obtain ⟨r, hrdef⟩ : ∃ r, r = rdOf ⟨y, 1, dd⟩ := ⟨_, rfl⟩
    obtain ⟨Z, hZdef⟩ : ∃ Z, Z = r + 1721425 := ⟨_, rfl⟩
    rw [← hrdef, ← hZdef]
    have hD' : calD Z = 365*calC Z + calC Z / 4 := by
      unfold calD
      omega
    have hrr : r = 365*(y-1) + (y-1)/4 - (y-1)/100 + (y-1)/400 + dd := by
      rw [hrdef]
      unfold rdOf
      have e1 : daysBeforeMonth (isLeap y) 1 = 0 := by
        rcases Bool.eq_false_or_eq_true (isLeap y) with hb | hb <;> rw [hb] <;> decide
      rw [e1]
      ring
    have hcore : calC Z = (y - 1) + 4716 ∧ calB Z - calD Z = 428 + dd := by
      rcases Bool.eq_false_or_eq_true (isLeap (y - 1)) with hb' | hb'
      case inl =>
        have hLc' : ((y - 1) % 4 = 0 ∧ (y - 1) % 100 ≠ 0) ∨ (y - 1) % 400 = 0 :=
          (isLeap_true_iff (y - 1)).mp hb'
        have hr : r = 365*((y-1)-1) + ((y-1)-1)/4 - ((y-1)-1)/100 + ((y-1)-1)/400
            + (365 + 1 + dd) := by
          rw [hrr]
          omega
        clear hrr hrdef hdd2
        obtain ⟨hc1, hc2, hc3⟩ := calCore (y - 1) (365 + 1 + dd) r Z
          (calAlpha Z) (calA Z) (calB Z) (calC Z) (calD Z) 1 (by omega) (by omega)
          (by omega) (by omega) hr hZdef rfl rfl rfl rfl hD' (Or.inl ⟨hb', rfl⟩)
        exact ⟨hc2, by omega⟩
      case inr =>
        have hLc' : ¬ (((y - 1) % 4 = 0 ∧ (y - 1) % 100 ≠ 0) ∨ (y - 1) % 400 = 0) :=
          (isLeap_false_iff (y - 1)).mp hb'
        have hr : r = 365*((y-1)-1) + ((y-1)-1)/4 - ((y-1)-1)/100 + ((y-1)-1)/400
            + (365 + 0 + dd) := by
          rw [hrr]
          omega
        clear hrr hrdef hdd2
        obtain ⟨hc1, hc2, hc3⟩ := calCore (y - 1) (365 + 0 + dd) r Z
          (calAlpha Z) (calA Z) (calB Z) (calC Z) (calD Z) 0 (by omega) (by omega)
          (by omega) (by omega) hr hZdef rfl rfl rfl rfl hD' (Or.inr ⟨hb', rfl⟩)
        exact ⟨hc2, by omega⟩
    obtain ⟨hc2, hBD⟩ := hcore
    have hdefE : calE Z = (10000*(calB Z - calD Z)) / 306001 := rfl
    have hE : calE Z = 14 := by omega
    have hdefDay : calDay Z = calB Z - calD Z - (306001*calE Z) / 10000 := rfl
    have hDay : calDay Z = dd := by
      rw [hE] at hdefDay
      omega
    have hMon : calMonth Z = 1 := by
      unfold calMonth
      rw [hE, if_neg (by omega)]
      omega
    refine ⟨?_, hMon, hDay⟩
    unfold calYear
    rw [hMon, if_neg (by omega), hc2]
    omega
  case inr =>
    have hdd29 : dd ≤ 29 ∧ (dd = 29 → ((y % 4 = 0 ∧ y % 100 ≠ 0) ∨ y % 400 = 0)) := by
      unfold daysInMonth at hdd2
      norm_num at hdd2
      rcases Bool.eq_false_or_eq_true (isLeap y) with hb | hb <;> rw [hb] at hdd2 <;>
        norm_num at hdd2
      · exact ⟨by omega, fun _ => hLiffy.mp hb⟩
      · constructor
        · omega
        · intro hd29
          exact absurd (hLiffy2.mp hb) (by omega)
    obtain ⟨r, hrdef⟩ : ∃ r, r = rdOf ⟨y, 2, dd⟩ := ⟨_, rfl⟩
    obtain ⟨Z, hZdef⟩ : ∃ Z, Z = r + 1721425 := ⟨_, rfl⟩
    rw [← hrdef, ← hZdef]
    have hD' : calD Z = 365*calC Z + calC Z / 4 := by
      unfold calD
      omega
    have hrr : r = 365*(y-1) + (y-1)/4 - (y-1)/100 + (y-1)/400 + 31 + dd := by
      rw [hrdef]
      unfold rdOf
      have e1 : daysBeforeMonth (isLeap y) 2 = 31 := by
        rcases Bool.eq_false_or_eq_true (isLeap y) with hb | hb <;> rw [hb] <;> decide
      rw [e1]
    have hcore : calC Z = (y - 1) + 4716 ∧ calB Z - calD Z = 459 + dd := by
      rcases Bool.eq_false_or_eq_true (isLeap (y - 1)) with hb' | hb'
      case inl =>
        have hLc' : ((y - 1) % 4 = 0 ∧ (y - 1) % 100 ≠ 0) ∨ (y - 1) % 400 = 0 :=
          (isLeap_true_iff (y - 1)).mp hb'
        have hdd28 : dd ≤ 28 := by
          rcases hdd29 with ⟨h29, himp⟩
          by_contra hcon
          have := himp (by omega)
          omega
        have hr : r = 365*((y-1)-1) + ((y-1)-1)/4 - ((y-1)-1)/100 + ((y-1)-1)/400
            + (365 + 1 + 31 + dd) := by
          rw [hrr]
          omega
        clear hrr hrdef hdd2
        obtain ⟨hc1, hc2, hc3⟩ := calCore (y - 1) (365 + 1 + 31 + dd) r Z
          (calAlpha Z) (calA Z) (calB Z) (calC Z) (calD Z) 1 (by omega) (by omega)
          (by omega) (by omega) hr hZdef rfl rfl rfl rfl hD' (Or.inl ⟨hb', rfl⟩)
        exact ⟨hc2, by omega⟩
      case inr =>
        have hLc' : ¬ (((y - 1) % 4 = 0 ∧ (y - 1) % 100 ≠ 0) ∨ (y - 1) % 400 = 0) :=
          (isLeap_false_iff (y - 1)).mp hb'
        have hr : r = 365*((y-1)-1) + ((y-1)-1)/4 - ((y-1)-1)/100 + ((y-1)-1)/400
            + (365 + 0 + 31 + dd) := by
          rw [hrr]
          omega
        clear hrr hrdef hdd2
        obtain ⟨hc1, hc2, hc3⟩ := calCore (y - 1) (365 + 0 + 31 + dd) r Z
          (calAlpha Z) (calA Z) (calB Z) (calC Z) (calD Z) 0 (by omega) (by omega)
          (by omega)
          (by rcases hdd29 with ⟨h29, himp⟩
              rcases (show dd ≤ 27 ∨ dd = 28 ∨ dd = 29 by omega) with h | h | h
              · left
                omega
              · left
                omega
              · right
                exact ⟨by omega, Or.inr (by have := himp h; omega)⟩)
          hr hZdef rfl rfl rfl rfl hD' (Or.inr ⟨hb', rfl⟩)
        exact ⟨hc2, by omega⟩
    obtain ⟨hc2, hBD⟩ := hcore
    have hdefE : calE Z = (10000*(calB Z - calD Z)) / 306001 := rfl
    have hE : calE Z = 15 := by omega
    have hdefDay : calDay Z = calB Z - calD Z - (306001*calE Z) / 10000 := rfl
    have hDay : calDay Z = dd := by
      rw [hE] at hdefDay
      omega
    have hMon : calMonth Z = 2 := by
      unfold calMonth
      rw [hE, if_neg (by omega)]
      omega
    refine ⟨?_, hMon, hDay⟩
    unfold calYear
    rw [hMon, if_neg (by omega), hc2]
    omega

/-- The calendar successor function is correct for `rdOf`: it preserves
validity (up to the 9999-12-31 end of the `datetime` range) and advances the
rata-die count by exactly one. -/
theorem nextDate_rd (d : Date) (h : d.valid) (hlt : rdOf d ≤ 3652058) :
    (nextDate d).valid ∧ rdOf (nextDate d) = rdOf d + 1 := by
  obtain ⟨y, m, dd⟩ := d
  obtain ⟨hy1, hy2, hm1, hm2, hd1, hd2⟩ := h
  simp only at hy1 hy2 hm1 hm2 hd1 hd2
  unfold nextDate
  dsimp only
  split_ifs with h1 h2
  · constructor
    · unfold Date.valid
      dsimp only
      refine ⟨by omega, by omega, by omega, by omega, by omega, by omega⟩
    · unfold rdOf
      dsimp only
      omega
  · have hdd : dd = daysInMonth y m := by omega
    constructor
    · unfold Date.valid
      dsimp only
      refine ⟨by omega, by omega, by omega, by omega, by omega, ?_⟩
      unfold daysInMonth
      rcases Bool.eq_false_or_eq_true (isLeap y) with hb | hb <;> rw [hb] <;>
        split_ifs <;> omega
    · unfold rdOf
      dsimp only
      rw [hdd]
      unfold daysInMonth daysBeforeMonth
      rcases Bool.eq_false_or_eq_true (isLeap y) with hb | hb <;> rw [hb] <;>
        interval_cases m <;> norm_num <;> omega
  · have hm12 : m = 12 := by omega
    subst hm12
    have hdd31 : dd = 31 := by
      unfold daysInMonth at hd2 h1
      norm_num at hd2 h1
      omega
    subst hdd31
    have hy9998 : y ≤ 9998 := by
      by_contra hcon
      have hy9 : y = 9999 := by omega
      subst hy9
      unfold rdOf at hlt
      rw [show isLeap 9999 = false from by decide] at hlt
      rw [show daysBeforeMonth false 12 = 334 from by decide] at hlt
      norm_num at hlt
    constructor
    · unfold Date.valid
      dsimp only
      refine ⟨by omega, by omega, by omega, by omega, by omega, ?_⟩
      unfold daysInMonth
      norm_num
    · unfold rdOf
      dsimp only
      rw [show ∀ b : Bool, daysBeforeMonth b 1 = 0 from by intro b; cases b <;> decide]
      rcases Bool.eq_false_or_eq_true (isLeap y) with hb | hb
      · have hLc : ((y % 4 = 0 ∧ y % 100 ≠ 0) ∨ y % 400 = 0) := (isLeap_true_iff y).mp hb
        rw [hb, show daysBeforeMonth true 12 = 335 from by decide]
        omega
      · have hLc : ¬ ((y % 4 = 0 ∧ y % 100 ≠ 0) ∨ y % 400 = 0) := (isLeap_false_iff y).mp hb
        rw [hb, show daysBeforeMonth false 12 = 334 from by decide]
        omega

/-- Combined decode correctness: for any valid date at or after 1582-10-15
(rata die 577736), the integer Gregorian branch of the `jd_to_utc_datetime`
calendar algorithm recovers the year, month and day from `rdOf d + 1721425`. -/
theorem calDecode (y m dd : ℤ) (hv : (Date.mk y m dd).valid)
    (hrd : 577736 ≤ rdOf ⟨y, m, dd⟩) :
    calYear (rdOf ⟨y, m, dd⟩ + 1721425) = y ∧
      calMonth (rdOf ⟨y, m, dd⟩ + 1721425) = m ∧
      calDay (rdOf ⟨y, m, dd⟩ + 1721425) = dd := by
  obtain ⟨hy1, hy2, hm1, hm2, hd1, hd2⟩ := hv
  simp only at hy1 hy2 hm1 hm2 hd1 hd2
  have hdm31 : daysInMonth y m ≤ 31 := by
    unfold daysInMonth
    rcases Bool.eq_false_or_eq_true (isLeap y) with hb | hb <;> rw [hb] <;>
      split_ifs <;> omega
  have hdbm : 0 ≤ daysBeforeMonth (isLeap y) m ∧ daysBeforeMonth (isLeap y) m ≤ 335 := by
    unfold daysBeforeMonth
    rcases Bool.eq_false_or_eq_true (isLeap y) with hb | hb <;> rw [hb] <;>
      interval_cases m <;> norm_num
  rcases le_or_lt m 2 with hm2' | hm3
  · have hdbm2 : daysBeforeMonth (isLeap y) m ≤ 31 := by
      unfold daysBeforeMonth
      rcases Bool.eq_false_or_eq_true (isLeap y) with hb | hb <;> rw [hb] <;>
        interval_cases m <;> norm_num
    have hy1583 : 1583 ≤ y := by
      unfold rdOf at hrd
      dsimp only at hrd
      omega
    exact calDecode_le2 y m dd hy1583 hy2 hm1 hm2' hd1 hd2
  · have hy1582 : 1582 ≤ y := by
      unfold rdOf at hrd
      dsimp only at hrd
      omega
    exact calDecode_ge3 y m dd hy1582 hy2 hm3 hm2 hd1 hd2

/-- Full inverse correctness of the Gregorian branch of the calendar decoder:
for every integer `Z` in the range corresponding to dates 1582-10-15 through
9999-12-31, the decoded (year, month, day) triple is a valid date whose
rata-die number is `Z - 1721425`. -/
theorem calDecodeAll (Z : ℤ) (h1 : 2299161 ≤ Z) (h2 : Z ≤ 5373484) :
    (Date.mk (calYear Z) (calMonth Z) (calDay Z)).valid ∧
      rdOf ⟨calYear Z, calMonth Z, calDay Z⟩ = Z - 1721425 := by
  revert Z
  refine Int.le_induction ?_ ?_
  · intro _
    exact ⟨by decide, by decide⟩
  · intro Z hZ ih h2
    obtain ⟨hv, hr⟩ := ih (by omega)
    have hle : rdOf ⟨calYear Z, calMonth Z, calDay Z⟩ ≤ 3652058 := by omega
    obtain ⟨nd, hnd⟩ : ∃ nd, nd = nextDate ⟨calYear Z, calMonth Z, calDay Z⟩ :=
      ⟨_, rfl⟩
    obtain ⟨hv', hr'⟩ := nextDate_rd _ hv hle
    rw [← hnd] at hv' hr'
    have hmk : (⟨nd.year, nd.month, nd.day⟩ : Date) = nd := rfl
    have hv2 : (Date.mk nd.year nd.month nd.day).valid := by rw [hmk]; exact hv'
    have hrd2 : 577736 ≤ rdOf ⟨nd.year, nd.month, nd.day⟩ := by
      rw [hmk]; omega
    obtain ⟨e1, e2, e3⟩ := calDecode nd.year nd.month nd.day hv2 hrd2
    rw [hmk] at e1 e2 e3
    have hZ1 : rdOf nd + 1721425 = Z + 1 := by omega
    rw [hZ1] at e1 e2 e3
    constructor
    · have hdm : (Date.mk (calYear (Z+1)) (calMonth (Z+1)) (calDay (Z+1))) = nd := by
        rw [e1, e2, e3]
      rw [hdm]
      exact hv'
    · rw [e1, e2, e3, hmk]
      omega

/-- Python truncation on `ℚ` agrees with the floor on nonnegative input. -/
theorem pyIntQ_of_nonneg (q : ℚ) (h : 0 ≤ q) : pyIntQ q = ⌊q⌋ := if_pos h

/-- Python truncation on `ℝ` agrees with the floor on nonnegative input. -/
theorem pyInt_of_nonneg (x : ℝ) (h : 0 ≤ x) : pyInt x = ⌊x⌋ := if_pos h

/-- Python rounding differs from its argument by at most one half. -/
theorem pyRound_abs_le (x : ℝ) : |(pyRound x : ℝ) - x| ≤ 1/2 := by
  have hf1 : (⌊x⌋ : ℝ) ≤ x := Int.floor_le x
  have hf2 : x < (⌊x⌋ : ℝ) + 1 := Int.lt_floor_add_one x
  unfold pyRound
  split_ifs with h1 h2 h3 <;> rw [abs_le] <;> constructor <;> push_cast <;> linarith

/-- On and after the Gregorian switch value `Z = 2299161`, the exact
rational computation of `jd_to_utc_datetime` agrees with its staged integer
form. -/
theorem utc_eq_cal (Z : ℤ) (h : 2299161 ≤ Z) :
    utcYear Z = calYear Z ∧ utcMonth Z = calMonth Z ∧ utcDayBase Z = calDay Z := by
  have halpha : utcAlpha Z = calAlpha Z := by
    unfold utcAlpha calAlpha
    have h0 : ((Z : ℚ) - 1867216.25) / 36524.25
        = (((4*Z - 7468865 : ℤ) : ℚ)) / (((146097 : ℤ) : ℚ)) := by
      push_cast
      ring
    have hnn : (0 : ℚ) ≤ ((Z : ℚ) - 1867216.25) / 36524.25 := by
      apply div_nonneg _ (by norm_num)
      have : (2299161 : ℚ) ≤ (Z : ℚ) := by exact_mod_cast h
      linarith
    rw [pyIntQ_of_nonneg _ hnn, h0, floor_intCast_div _ _ (by norm_num)]
  have halpha0 : 0 ≤ calAlpha Z := by unfold calAlpha; omega
  have hA : utcA Z = calA Z := by
    unfold utcA calA
    rw [if_neg (by omega), halpha]
    have hnn : (0 : ℚ) ≤ (calAlpha Z : ℚ) / 4 := by
      apply div_nonneg _ (by norm_num)
      exact_mod_cast halpha0
    rw [pyIntQ_of_nonneg _ hnn,
      show ((calAlpha Z : ℚ)) / 4 = ((calAlpha Z : ℤ) : ℚ) / ((4 : ℤ) : ℚ) from by push_cast; ring,
      floor_intCast_div _ _ (by norm_num)]
  have hB : utcB Z = calB Z := by unfold utcB calB; rw [hA]
  have hBge : 2299161 ≤ calB Z := by unfold calB calA calAlpha; omega
  have hC : utcC Z = calC Z := by
    unfold utcC calC
    rw [hB]
    have hnn : (0 : ℚ) ≤ ((calB Z : ℚ) - 122.1) / 365.25 := by
      apply div_nonneg _ (by norm_num)
      have : (2299161 : ℚ) ≤ (calB Z : ℚ) := by exact_mod_cast hBge
      linarith
    rw [pyIntQ_of_nonneg _ hnn,
      show ((calB Z : ℚ) - 122.1) / 365.25
          = ((20*calB Z - 2442 : ℤ) : ℚ) / ((7305 : ℤ) : ℚ) from by push_cast; ring,
      floor_intCast_div _ _ (by norm_num)]
  have hCge : 0 ≤ calC Z := by
    unfold calC
    omega
  have hD : utcD Z = calD Z := by
    unfold utcD calD
    rw [hC]
    have hnn : (0 : ℚ) ≤ (365.25 : ℚ) * (calC Z : ℚ) := by
      apply mul_nonneg (by norm_num)
      exact_mod_cast hCge
    rw [pyIntQ_of_nonneg _ hnn,
      show (365.25 : ℚ) * (calC Z : ℚ)
          = ((1461*calC Z : ℤ) : ℚ) / ((4 : ℤ) : ℚ) from by push_cast; ring,
      floor_intCast_div _ _ (by norm_num)]
  have hBD : 0 ≤ calB Z - calD Z := by
    unfold calD calC
    omega
  have hE : utcE Z = calE Z := by
    unfold utcE calE
    rw [hB, hD]
    have hnn : (0 : ℚ) ≤ ((calB Z : ℚ) - (calD Z : ℚ)) / 30.6001 := by
      apply div_nonneg _ (by norm_num)
      have : ((calB Z - calD Z : ℤ) : ℚ) = (calB Z : ℚ) - (calD Z : ℚ) := by push_cast; ring
      rw [← this]
      exact_mod_cast hBD
    rw [pyIntQ_of_nonneg _ hnn,
      show ((calB Z : ℚ) - (calD Z : ℚ)) / 30.6001
          = ((10000*(calB Z - calD Z) : ℤ) : ℚ) / ((306001 : ℤ) : ℚ) from by push_cast; ring,
      floor_intCast_div _ _ (by norm_num)]
  have hEge : 0 ≤ calE Z := by
    unfold calE
    omega
  have hDay : utcDayBase Z = calDay Z := by
    unfold utcDayBase calDay
    rw [hB, hD, hE]
    have hnn : (0 : ℚ) ≤ (30.6001 : ℚ) * (calE Z : ℚ) := by
      apply mul_nonneg (by norm_num)
      exact_mod_cast hEge
    rw [pyIntQ_of_nonneg _ hnn,
      show (30.6001 : ℚ) * (calE Z : ℚ)
          = ((306001*calE Z : ℤ) : ℚ) / ((10000 : ℤ) : ℚ) from by push_cast; ring,
      floor_intCast_div _ _ (by norm_num)]
  have hM : utcMonth Z = calMonth Z := by unfold utcMonth calMonth; rw [hE]
  refine ⟨?_, hM, hDay⟩
  unfold utcYear calYear
  rw [hM, hC]

/-- Claim C10: the solar calculator duplicated in
`fig10_5mhz_generator.py` is extensionally equal to the one in
`src/core/Combined.py`: on every date, latitude, longitude and fixed-offset
time zone, both `sunrise_sunset_local` copies (with the helpers each calls)
return identical (sunrise, sunset) results. -/
theorem fig10_solar_copy_equal :
    ∀ (d : Date) (lat lon : ℝ) (off : ℤ),
      Fig10.sunrise_sunset_local d lat lon off = sunrise_sunset_local d lat lon off := by
  intro d lat lon off
  rfl

/-- Claim C7: `sunrise_sunset_local` is deterministic — two calls with equal
date, latitude, longitude and time-zone inputs return identical outputs (the
embedding is a pure function of its four arguments: the computation has no
hidden state). -/
theorem sunrise_sunset_deterministic (d₁ d₂ : Date) (lat₁ lat₂ lon₁ lon₂ : ℝ)
    (off₁ off₂ : ℤ) (hd : d₁ = d₂) (hlat : lat₁ = lat₂) (hlon : lon₁ = lon₂)
    (hoff : off₁ = off₂) :
    sunrise_sunset_local d₁ lat₁ lon₁ off₁ = sunrise_sunset_local d₂ lat₂ lon₂ off₂ := by
  subst hd
  subst hlat
  subst hlon
  subst hoff
  rfl

/-- Witness for claim C7 at the DGFC site inputs. -/
theorem sunrise_sunset_deterministic_witness :
    sunrise_sunset_local ⟨2023, 4, 18⟩ 5.4139 118.0385 28800
      = sunrise_sunset_local ⟨2023, 4, 18⟩ 5.4139 118.0385 28800 :=
  sunrise_sunset_deterministic _ _ _ _ _ _ _ _ rfl rfl rfl rfl

/-- Claim C8: the signal-to-foF2 estimators are exact clamps: the Darwin
variant returns `clamp(9.0 + s/12.0, 3.0, 15.0)` (hence always lies in
`[3, 15]`), and the Guam variant returns `clamp(10.5 + s/10.0, 4.0, 18.0)`. -/
theorem fof2_estimator_clamp (s : ℚ) :
    calculate_fof2_from_signal s
        = (if 9 + s/12 < 3 then 3 else if 15 < 9 + s/12 then 15 else 9 + s/12) ∧
      3 ≤ calculate_fof2_from_signal s ∧ calculate_fof2_from_signal s ≤ 15 ∧
      calculate_fof2_from_signal_guam s
        = (if 10.5 + s/10 < 4 then 4 else if 18 < 10.5 + s/10 then 18 else 10.5 + s/10) := by
  unfold calculate_fof2_from_signal calculate_fof2_from_signal_guam npClip
  refine ⟨?_, ?_, ?_, ?_⟩ <;>
    simp only [min_def, max_def] <;> split_ifs <;> norm_num <;> linarith

/-- Claim C4: in the night-interval builder, when the next date with data is
more than one calendar day later, no single interval from sunset to the next
sunrise is emitted; instead exactly the two clamped pieces
sunset→midnight-after-`d` and midnight-of-`d'`→sunrise are emitted, each
only if non-empty. -/
theorem night_gap_not_bridged (sun : ℤ → Option ℤ × Option ℤ)
    (startT endT d d' s r : ℤ) (rest : List ℤ)
    (hgap : 1 < d' - d) (hss : (sun d).2 = some s) (hsr : (sun d').1 = some r) :
    buildNightIntervals sun startT endT (d :: d' :: rest) =
      ((if max s startT < min (86400*(d+1)) endT then
          [(max s startT, min (86400*(d+1)) endT)] else [])
        ++ (if max (86400*d') startT < min r endT then
          [(max (86400*d') startT, min r endT)] else []))
        ++ buildNightGo sun startT endT false (d' :: rest) := by
  have hlen : ((d :: d' :: rest).length == 1) = false := by
    simp [List.length_cons]
  unfold buildNightIntervals
  rw [hlen]
  simp only [buildNightGo]
  unfold nightBody
  rw [hss]
  dsimp only
  rw [hsr]
  dsimp only
  rw [if_neg (by omega : ¬ d' - d ≤ 1)]
  simp only [Bool.false_eq_true, if_false, List.append_nil, clampSpan,
    List.append_assoc]

/-- Witness for claim C4 on a three-day gap. -/
theorem night_gap_not_bridged_witness :
    buildNightIntervals (fun x => (some (86400*x + 21600), some (86400*x + 64800)))
        800000 1200000 [10, 13] =
      ((if max (86400*10 + 64800 : ℤ) 800000 < min (86400*(10+1)) 1200000 then
          [(max (86400*10 + 64800 : ℤ) 800000, min (86400*(10+1)) 1200000)] else [])
        ++ (if max (86400*13 : ℤ) 800000 < min (86400*13 + 21600) 1200000 then
          [(max (86400*13 : ℤ) 800000, min (86400*13 + 21600) 1200000)] else []))
        ++ buildNightGo (fun x => (some (86400*x + 21600), some (86400*x + 64800)))
            800000 1200000 false [13] :=
  night_gap_not_bridged _ 800000 1200000 10 13 (86400*10 + 64800) (86400*13 + 21600)
    [] (by norm_num) rfl rfl

/-- Claim C5: in the night-interval builder, a date whose successor is at
most one calendar day later contributes exactly the single clamped interval
`[max(sunset d, plot_start), min(sunrise d', plot_end)]`, emitted only when
its left endpoint is strictly less than its right endpoint. -/
theorem night_consecutive_clamped (sun : ℤ → Option ℤ × Option ℤ)
    (startT endT d d' s r : ℤ) (rest : List ℤ)
    (hgap : d' - d ≤ 1) (hss : (sun d).2 = some s) (hsr : (sun d').1 = some r) :
    buildNightIntervals sun startT endT (d :: d' :: rest) =
      (if max s startT < min r endT then [(max s startT, min r endT)] else [])
        ++ buildNightGo sun startT endT false (d' :: rest) := by
  have hlen : ((d :: d' :: rest).length == 1) = false := by
    simp [List.length_cons]
  unfold buildNightIntervals
  rw [hlen]
  simp only [buildNightGo]
  unfold nightBody
  rw [hss]
  dsimp only
  rw [hsr]
  dsimp only
  rw [if_pos hgap]
  simp only [Bool.false_eq_true, if_false, List.append_nil, clampSpan,
    List.append_assoc]

/-- Witness for claim C5 on two consecutive days. -/
theorem night_consecutive_clamped_witness :
    buildNightIntervals (fun x => (some (86400*x + 21600), some (86400*x + 64800)))
        800000 1100000 [10, 11] =
      (if max (86400*10 + 64800 : ℤ) 800000 < min (86400*11 + 21600) 1100000 then
          [(max (86400*10 + 64800 : ℤ) 800000, min (86400*11 + 21600) 1100000)] else [])
        ++ buildNightGo (fun x => (some (86400*x + 21600), some (86400*x + 64800)))
            800000 1100000 false [11] :=
  night_consecutive_clamped _ 800000 1100000 10 11 (86400*10 + 64800) (86400*11 + 21600)
    [] (by norm_num) rfl rfl

/-- Claim C6: when the dataset holds exactly one distinct date, the builder
emits the extra pre-sunrise interval `[plot_start, min(sunrise, plot_end)]`
and post-sunset interval `[max(sunset, plot_start), plot_end]`, each clamped
to the plot window and emitted only if non-empty. -/
theorem night_single_date_extra_spans (sun : ℤ → Option ℤ × Option ℤ)
    (startT endT d s r : ℤ)
    (hsr : (sun d).1 = some r) (hss : (sun d).2 = some s) :
    buildNightIntervals sun startT endT [d] =
      (if startT < min r endT then [(startT, min r endT)] else [])
        ++ (if max s startT < endT then [(max s startT, endT)] else []) := by
  unfold buildNightIntervals
  simp only [List.length_singleton, buildNightGo]
  unfold nightBody
  rw [hsr, hss]
  rfl

/-- Witness for claim C6 on a one-day dataset. -/
theorem night_single_date_extra_spans_witness :
    buildNightIntervals (fun x => (some (86400*x + 21600), some (86400*x + 64800)))
        864000 950000 [10] =
      (if 864000 < min (86400*10 + 21600 : ℤ) 950000 then
          [(864000, min (86400*10 + 21600 : ℤ) 950000)] else [])
        ++ (if max (86400*10 + 64800 : ℤ) 864000 < 950000 then
          [(max (86400*10 + 64800 : ℤ) 864000, 950000)] else []) :=
  night_single_date_extra_spans _ 864000 950000 10 (86400*10 + 64800)
    (86400*10 + 21600) rfl rfl

/-- Any valid date has rata-die number at most that of 9999-12-31. -/
theorem rdOf_le_max (d : Date) (h : d.valid) : rdOf d ≤ 3652059 := by
  obtain ⟨y, m, dd⟩ := d
  obtain ⟨hy1, hy2, hm1, hm2, hd1, hd2⟩ := h
  simp only at hy1 hy2 hm1 hm2 hd1 hd2
  have hdm31 : daysInMonth y m ≤ 31 := by
    unfold daysInMonth
    rcases Bool.eq_false_or_eq_true (isLeap y) with hb | hb <;> rw [hb] <;>
      split_ifs <;> omega
  rcases Bool.eq_false_or_eq_true (isLeap y) with hb | hb
  · have hLc : ((y % 4 = 0 ∧ y % 100 ≠ 0) ∨ y % 400 = 0) := (isLeap_true_iff y).mp hb
    have hdbm : daysBeforeMonth (isLeap y) m ≤ 335 := by
      unfold daysBeforeMonth
      rw [hb]
      interval_cases m <;> norm_num
    unfold rdOf
    dsimp only
    omega
  · have hdbm : daysBeforeMonth (isLeap y) m ≤ 334 := by
      unfold daysBeforeMonth
      rw [hb]
      interval_cases m <;> norm_num
    unfold rdOf
    dsimp only
    omega

/-- Counterexample to claim C2 as stated: at 2000-01-01 (a valid date)
`julian_day` returns 2451544.5, the Julian Day of 00:00 UTC, not the
12:00 UTC value 2451545 required by the standard convention the spec
names. -/
theorem julian_day_not_noon_at_epoch :
    (Date.mk 2000 1 1).valid ∧ julian_day ⟨2000, 1, 1⟩ = 2451544.5 ∧
      jdNoon ⟨2000, 1, 1⟩ = 2451545 ∧
      julian_day ⟨2000, 1, 1⟩ ≠ jdNoon ⟨2000, 1, 1⟩ := by
  have h1 : julian_day ⟨2000, 1, 1⟩ = 2451544.5 := by
    unfold julian_day
    dsimp only
    norm_num
  have h2 : jdNoon ⟨2000, 1, 1⟩ = 2451545 := by
    unfold jdNoon
    rw [show rdOf ⟨2000, 1, 1⟩ = 730120 from by decide]
    norm_num
  refine ⟨by decide, h1, h2, ?_⟩
  rw [h1, h2]
  norm_num

/-- Claim C2 (amended): on every valid date, `julian_day` returns the
Julian Day number of 00:00 UTC of that date (the standard proleptic
Gregorian formula shifted by half a day), i.e. `rdOf d + 1721424.5`. -/
theorem julian_day_is_midnight_jd (d : Date) (h : d.valid) :
    julian_day d = jdMidnight d :=
  julian_day_eq_jdMidnight d h

/-- Witness for the amended claim C2 at 2000-01-01. -/
theorem julian_day_is_midnight_jd_witness :
    julian_day ⟨2000, 1, 1⟩ = jdMidnight ⟨2000, 1, 1⟩ :=
  julian_day_is_midnight_jd ⟨2000, 1, 1⟩ (by decide)

/-- Main totality/accuracy lemma for `jd_to_utc_datetime`: if the integer
part `Z` of `jd + 0.5` lies in the Gregorian range of the algorithm, the
conversion succeeds and the returned timeline second count differs from the
exact value `86400*(jd - 1721424.5)` by at most half a second (the rounding
of `seconds`).  At the very last representable day `Z = 5373484` the
fraction must stay clear of the day's end, else the `timedelta` addition
can overflow. -/
theorem jd_to_utc_approx (x : ℝ) (Z : ℤ) (hZdef : Z = pyInt (x + 0.5))
    (h1 : 2299161 ≤ Z) (h2 : Z ≤ 5373484)
    (h3 : Z = 5373484 → x + 0.5 - (Z : ℝ) ≤ 9/10) :
    ∃ ts : ℤ, jd_to_utc_datetime x = some ts ∧
      |(ts : ℝ) - 86400*(x - 1721424.5)| ≤ 1/2 := by
  have hx05 : 0 ≤ x + 0.5 := by
    by_contra hneg
    push_neg at hneg
    have hZneg : Z = -⌊-(x + 0.5)⌋ := by rw [hZdef]; exact if_neg (by linarith)
    have h4 : 0 ≤ ⌊-(x + 0.5)⌋ := Int.floor_nonneg.mpr (by linarith)
    omega
  have hZfloor : Z = ⌊x + 0.5⌋ := by rw [hZdef, pyInt_of_nonneg _ hx05]
  have hF0 : 0 ≤ x + 0.5 - (Z : ℝ) := by
    rw [hZfloor]
    have := Int.floor_le (x + 0.5)
    linarith
  have hF1 : x + 0.5 - (Z : ℝ) < 1 := by
    rw [hZfloor]
    have := Int.lt_floor_add_one (x + 0.5)
    linarith
  obtain ⟨hvalid, hrd⟩ := calDecodeAll Z h1 h2
  obtain ⟨hYear, hMonth, hDayB⟩ := utc_eq_cal Z h1
  have hday1 : 1 ≤ calDay Z := hvalid.2.2.2.2.1
  have hdayInt : pyInt ((utcDayBase Z : ℝ) + (x + 0.5 - (Z : ℝ))) = utcDayBase Z := by
    rw [pyInt_of_nonneg, Int.floor_int_add,
      show ⌊x + 0.5 - (Z : ℝ)⌋ = 0 from Int.floor_eq_zero_iff.mpr ⟨hF0, hF1⟩,
      add_zero]
    have hd : (1 : ℝ) ≤ (utcDayBase Z : ℝ) := by
      rw [hDayB]
      exact_mod_cast hday1
    linarith
  have hsecB := pyRound_abs_le ((x + 0.5 - (Z : ℝ)) * 86400)
  rw [abs_le] at hsecB
  have hsec0 : 0 ≤ pyRound ((x + 0.5 - (Z : ℝ)) * 86400) := by
    by_contra hc
    push_neg at hc
    have : (pyRound ((x + 0.5 - (Z : ℝ)) * 86400) : ℝ) ≤ -1 := by
      exact_mod_cast Int.le_of_lt_add_one (by omega : pyRound _ < -1 + 1)
    nlinarith
  have hsechi : pyRound ((x + 0.5 - (Z : ℝ)) * 86400) ≤ 86400 := by
    by_contra hc
    push_neg at hc
    have : (86401 : ℝ) ≤ (pyRound ((x + 0.5 - (Z : ℝ)) * 86400) : ℝ) := by
      exact_mod_cast hc
    nlinarith
  have hrange : 86400 ≤ 86400 * (Z - 1721425) + pyRound ((x + 0.5 - (Z : ℝ)) * 86400) ∧
      86400 * (Z - 1721425) + pyRound ((x + 0.5 - (Z : ℝ)) * 86400)
        ≤ 86400 * 3652059 + 86399 := by
    constructor
    · have : 577736 ≤ Z - 1721425 := by omega
      nlinarith [hsec0]
    · rcases lt_or_eq_of_le h2 with hlt | heq
      · have hsec86400 := hsechi
        have : Z - 1721425 ≤ 3652058 := by omega
        nlinarith
      · have hsecsm : pyRound ((x + 0.5 - (Z : ℝ)) * 86400) ≤ 77761 := by
          have hF9 := h3 heq
          by_contra hc
          push_neg at hc
          have h5 : (77762 : ℝ) ≤ (pyRound ((x + 0.5 - (Z : ℝ)) * 86400) : ℝ) := by
            exact_mod_cast hc
          nlinarith
        omega
  refine ⟨86400 * (Z - 1721425) + pyRound ((x + 0.5 - (Z : ℝ)) * 86400), ?_, ?_⟩
  · simp only [jd_to_utc_datetime]
    rw [← hZdef, hdayInt,
      show (utcDayBase Z : ℝ) + (x + 0.5 - (Z : ℝ)) - (utcDayBase Z : ℝ)
        = x + 0.5 - (Z : ℝ) from by ring,
      hYear, hMonth, hDayB, if_pos hvalid, hrd, if_pos hrange]
  · have hgoal : (86400 * (Z - 1721425) : ℝ)
          + (pyRound ((x + 0.5 - (Z : ℝ)) * 86400) : ℝ) - 86400*(x - 1721424.5)
        = (pyRound ((x + 0.5 - (Z : ℝ)) * 86400) : ℝ) - (x + 0.5 - (Z : ℝ)) * 86400 := by
      ring
    rw [abs_le]
    constructor <;> push_cast <;> nlinarith [hsecB.1, hsecB.2]

/-- Claim C9: converting a valid date on or after 1582-10-15 to a Julian
Day with `julian_day` and back with `jd_to_utc_datetime` is the identity up
to time of day: the result is 00:00:00 UTC of the same calendar date
(timeline second count `86400 * rdOf d`). -/
theorem julian_day_roundtrip (d : Date) (h : d.valid) (hrd : 577736 ≤ rdOf d) :
    jd_to_utc_datetime ((julian_day d : ℚ) : ℝ) = some (86400 * rdOf d) := by
  have hjd : julian_day d = jdMidnight d := julian_day_eq_jdMidnight d h
  have hbig : rdOf d ≤ 3652059 := rdOf_le_max d h
  have hx : ((julian_day d : ℚ) : ℝ) = (rdOf d : ℝ) + 1721424.5 := by
    rw [hjd]
    unfold jdMidnight
    push_cast
    ring
  have hZ : rdOf d + 1721425 = pyInt (((julian_day d : ℚ) : ℝ) + 0.5) := by
    rw [hx,
      show (rdOf d : ℝ) + 1721424.5 + 0.5 = ((rdOf d + 1721425 : ℤ) : ℝ) from by
        push_cast; ring,
      pyInt_of_nonneg _ (by exact_mod_cast (by omega : (0:ℤ) ≤ rdOf d + 1721425)),
      Int.floor_intCast]
  obtain ⟨ts, hts, habs⟩ := jd_to_utc_approx ((julian_day d : ℚ) : ℝ)
    (rdOf d + 1721425) hZ (by omega) (by omega)
    (by
      intro _
      rw [hx]
      push_cast
      linarith)
  have habs' : |(ts : ℝ) - ((86400 * rdOf d : ℤ) : ℝ)| ≤ 1/2 := by
    rw [hx] at habs
    convert habs using 2
    push_cast
    ring
  have hint : ts = 86400 * rdOf d := by
    have h1' : ((|ts - 86400 * rdOf d| : ℤ) : ℝ) ≤ 1/2 := by
      rw [Int.cast_abs]
      push_cast
      convert habs' using 2
      push_cast
      ring
    have hle0 : |ts - 86400 * rdOf d| ≤ 0 := by
      by_contra hc
      push_neg at hc
      have : (1 : ℝ) ≤ ((|ts - 86400 * rdOf d| : ℤ) : ℝ) := by
        exact_mod_cast hc
      linarith
    have h0 : |ts - 86400 * rdOf d| = 0 := le_antisymm hle0 (abs_nonneg _)
    rw [abs_eq_zero] at h0
    omega
  rw [hts, hint]

/-- Witness for claim C9 at 2000-01-01. -/
theorem julian_day_roundtrip_witness :
    jd_to_utc_datetime ((julian_day ⟨2000, 1, 1⟩ : ℚ) : ℝ)
      = some (86400 * rdOf ⟨2000, 1, 1⟩) :=
  julian_day_roundtrip ⟨2000, 1, 1⟩ (by decide) (by decide)

/-- Quartic Taylor bounds for `sin` on `[0, 1]`. -/
theorem sin_num_bounds (x : ℝ) (h0 : 0 ≤ x) (h1 : x ≤ 1) :
    x - x^3/6 - x^4*(5/96) ≤ Real.sin x ∧ Real.sin x ≤ x - x^3/6 + x^4*(5/96) := by
  have hb := Real.sin_bound (x := x) (by rw [abs_of_nonneg h0]; exact h1)
  rw [abs_of_nonneg h0, abs_le] at hb
  constructor <;> linarith [hb.1, hb.2]

/-- Quartic Taylor bounds for `cos` on `[0, 1]`. -/
theorem cos_num_bounds (x : ℝ) (h0 : 0 ≤ x) (h1 : x ≤ 1) :
    1 - x^2/2 - x^4*(5/96) ≤ Real.cos x ∧ Real.cos x ≤ 1 - x^2/2 + x^4*(5/96) := by
  have hb := Real.cos_bound (x := x) (by rw [abs_of_nonneg h0]; exact h1)
  rw [abs_of_nonneg h0, abs_le] at hb
  constructor <;> linarith [hb.1, hb.2]

/-- Monotone bound for `sin` through an absolute-value bound on the angle. -/
theorem sin_abs_mono (x A : ℝ) (h1 : |x| ≤ A) (h2 : A ≤ Real.pi/2) :
    |Real.sin x| ≤ Real.sin A := by
  have hA0 : 0 ≤ A := le_trans (abs_nonneg x) h1
  have habs : |Real.sin x| = Real.sin |x| := by
    rcases le_or_lt 0 x with hx | hx
    · rw [abs_of_nonneg hx, abs_of_nonneg]
      exact Real.sin_nonneg_of_nonneg_of_le_pi hx
        (by
          have hpi := Real.pi_gt_d6
          have := abs_of_nonneg hx
          nlinarith [h1, h2])
    · have hs0 : Real.sin x ≤ 0 := by
        apply Real.sin_nonpos_of_nonnpos_of_neg_pi_le (le_of_lt hx)
        have ha := abs_le.mp h1
        have hpi := Real.pi_gt_d6
        nlinarith [ha.1]
      rw [abs_of_neg hx, Real.sin_neg, abs_of_nonpos hs0]
  rw [habs]
  rcases eq_or_lt_of_le h1 with he | hlt
  · rw [he]
  · exact le_of_lt (Real.strictMonoOn_sin
      ⟨by have := abs_nonneg x; linarith [Real.pi_pos], h1.trans h2⟩
      ⟨by linarith [abs_nonneg x, Real.pi_pos], h2⟩ hlt)

/-- Monotone bound for `cos` through an absolute-value bound on the angle. -/
theorem cos_abs_mono (x A : ℝ) (h1 : |x| ≤ A) (h2 : A ≤ Real.pi) :
    Real.cos A ≤ Real.cos x := by
  rw [← Real.cos_abs x]
  rcases eq_or_lt_of_le h1 with he | hlt
  · rw [he]
  · exact le_of_lt (Real.strictAntiOn_cos ⟨abs_nonneg x, h1.trans h2⟩
      ⟨le_trans (abs_nonneg x) h1, h2⟩ hlt)

/-- Lower bound on `arccos` from an upper bound on its argument. -/
theorem arccos_ge_of_arg_le (t y : ℝ) (hy0 : 0 ≤ y) (hyp : y ≤ Real.pi)
    (ht1 : -1 ≤ t) (hty : t ≤ Real.cos y) : y ≤ Real.arccos t := by
  by_contra hc
  push_neg at hc
  have h1 : Real.cos y < Real.cos (Real.arccos t) :=
    Real.strictAntiOn_cos ⟨Real.arccos_nonneg t, (Real.arccos_le_pi t).trans le_rfl⟩
      ⟨hy0, hyp⟩ hc
  rw [Real.cos_arccos ht1 (hty.trans (Real.cos_le_one y))] at h1
  linarith

/-- Upper bound on `arccos` from a lower bound on its argument. -/
theorem arccos_le_of_arg_ge (t y : ℝ) (hy0 : 0 ≤ y) (hyp : y ≤ Real.pi)
    (ht1 : t ≤ 1) (hty : Real.cos y ≤ t) : Real.arccos t ≤ y := by
  by_contra hc
  push_neg at hc
  have h1 : Real.cos (Real.arccos t) < Real.cos y :=
    Real.strictAntiOn_cos ⟨hy0, hyp⟩
      ⟨Real.arccos_nonneg t, Real.arccos_le_pi t⟩ hc
  rw [Real.cos_arccos (le_trans (Real.neg_one_le_cos y) hty) ht1] at h1
  linarith

/-- Conversion used by `sunrise_sunset_local`: `rad2deg H / 360 = H/(2π)`. -/
theorem rad2deg_div360 (H : ℝ) : rad2deg H / 360.0 = H / (2*Real.pi) := by
  unfold rad2deg
  rw [div_div]
  rw [div_eq_div_iff (by positivity) (by positivity)]
  ring

/-- Definitional unfolding of `sunrise_sunset_local` with its let bindings
substituted, stated once so that later proofs can rewrite the two
`jd_to_utc_datetime` scrutinees without reducing them. -/
theorem sunrise_sunset_local_eq (d : Date) (lat_deg lon_deg : ℝ) (offset : ℤ) :
    sunrise_sunset_local d lat_deg lon_deg offset =
      match jd_to_utc_datetime (solar_transit_jd ((julian_day d : ℚ) : ℝ) (deg2rad (-lon_deg))
          - rad2deg (hour_angle (deg2rad lat_deg)
              ((solar_coords (jd_to_jcent ((julian_day d : ℚ) : ℝ))).2.2.1) (-0.833)) / 360.0) with
      | none => none
      | some tsr =>
        if 86400 ≤ tsr + offset ∧ tsr + offset ≤ 86400 * 3652059 + 86399 then
          match jd_to_utc_datetime (solar_transit_jd ((julian_day d : ℚ) : ℝ) (deg2rad (-lon_deg))
              + rad2deg (hour_angle (deg2rad lat_deg)
                  ((solar_coords (jd_to_jcent ((julian_day d : ℚ) : ℝ))).2.2.1) (-0.833)) / 360.0) with
          | none => none
          | some tss =>
            if 86400 ≤ tss + offset ∧ tss + offset ≤ 86400 * 3652059 + 86399 then
              some (tsr + offset, tss + offset)
            else none
        else none := rfl

/-- The empirical correction terms keep `solar_transit_jd` within
`1/2 + 0.0122` days of its `jd` argument. -/
theorem solar_transit_near (jd lw : ℝ) : |solar_transit_jd jd lw - jd| ≤ 0.5122 := by
  simp only [solar_transit_jd]
  have hn := pyRound_abs_le (jd - 2451545.0009 - lw/(2*Real.pi))
  rw [abs_le] at hn
  have hs1 := Real.neg_one_le_sin (deg2rad (pyMod
    (357.5291 + 0.98560028*(2451545.0009 + lw/(2*Real.pi)
      + (pyRound (jd - 2451545.0009 - lw/(2*Real.pi)) : ℝ) - 2451545)) 360.0))
  have hs2 := Real.sin_le_one (deg2rad (pyMod
    (357.5291 + 0.98560028*(2451545.0009 + lw/(2*Real.pi)
      + (pyRound (jd - 2451545.0009 - lw/(2*Real.pi)) : ℝ) - 2451545)) 360.0))
  have hs3 := Real.neg_one_le_sin (2*(deg2rad (pyMod
    (280.160 + 1.915*Real.sin (deg2rad (pyMod
      (357.5291 + 0.98560028*(2451545.0009 + lw/(2*Real.pi)
        + (pyRound (jd - 2451545.0009 - lw/(2*Real.pi)) : ℝ) - 2451545)) 360.0))
      + 0.020*Real.sin (2*(deg2rad (pyMod
      (357.5291 + 0.98560028*(2451545.0009 + lw/(2*Real.pi)
        + (pyRound (jd - 2451545.0009 - lw/(2*Real.pi)) : ℝ) - 2451545)) 360.0)))
      + 0.0003*Real.sin (3*(deg2rad (pyMod
      (357.5291 + 0.98560028*(2451545.0009 + lw/(2*Real.pi)
        + (pyRound (jd - 2451545.0009 - lw/(2*Real.pi)) : ℝ) - 2451545)) 360.0))))
      360.0)))
  have hs4 := Real.sin_le_one (2*(deg2rad (pyMod
    (280.160 + 1.915*Real.sin (deg2rad (pyMod
      (357.5291 + 0.98560028*(2451545.0009 + lw/(2*Real.pi)
        + (pyRound (jd - 2451545.0009 - lw/(2*Real.pi)) : ℝ) - 2451545)) 360.0))
      + 0.020*Real.sin (2*(deg2rad (pyMod
      (357.5291 + 0.98560028*(2451545.0009 + lw/(2*Real.pi)
        + (pyRound (jd - 2451545.0009 - lw/(2*Real.pi)) : ℝ) - 2451545)) 360.0)))
      + 0.0003*Real.sin (3*(deg2rad (pyMod
      (357.5291 + 0.98560028*(2451545.0009 + lw/(2*Real.pi)
        + (pyRound (jd - 2451545.0009 - lw/(2*Real.pi)) : ℝ) - 2451545)) 360.0))))
      360.0)))
  rw [abs_le]
  constructor <;> linarith

/-- Range of the obliquity polynomial of `solar_coords` over the Julian
centuries corresponding to years 1583..9999. -/
theorem epsDeg_bounds (t : ℝ) (h1 : -4.21 ≤ t) (h2 : t ≤ 80.04) :
    22 ≤ 23.439291 - t*(0.0130042 + t*(1.64e-7 - 5.04e-7*t)) ∧
      23.439291 - t*(0.0130042 + t*(1.64e-7 - 5.04e-7*t)) ≤ 23.5 := by
  have h1' : (0:ℝ) ≤ t + 4.21 := by linarith
  have h2' : (0:ℝ) ≤ 80.04 - t := by linarith
  constructor
  · nlinarith [mul_nonneg h1' h2', mul_nonneg (mul_nonneg h1' h1') h2',
      mul_nonneg h1' (mul_nonneg h2' h2'), sq_nonneg t, sq_nonneg (t + 4.21),
      sq_nonneg (80.04 - t)]
  · nlinarith [mul_nonneg h1' h2', mul_nonneg (mul_nonneg h1' h1') h2',
      mul_nonneg h1' (mul_nonneg h2' h2'), sq_nonneg t, sq_nonneg (t + 4.21),
      sq_nonneg (80.04 - t)]

set_option maxHeartbeats 1600000 in
/-- Certified numeric bounds on the worst-case latitude/declination
products at 66.5° and 23.7°. -/
theorem sinAB_cosAB_bounds :
    Real.sin (66.5*Real.pi/180) * Real.sin (23.7*Real.pi/180) ≤ 0.3695 ∧
      (0.3644 : ℝ) ≤ Real.cos (66.5*Real.pi/180) * Real.cos (23.7*Real.pi/180) := by
  have hp1 := Real.pi_gt_d6
  have hp2 := Real.pi_lt_d6
  have ht0 : (0:ℝ) ≤ 21.4*Real.pi/180 := by linarith
  have ht1 : 21.4*Real.pi/180 ≤ 1 := by linarith
  have htlo : (0.3735003 : ℝ) ≤ 21.4*Real.pi/180 := by linarith
  have hthi : 21.4*Real.pi/180 ≤ 0.3735006 := by linarith
  obtain ⟨hs1, hs2⟩ := sin_num_bounds (21.4*Real.pi/180) ht0 ht1
  have hc3hi : (21.4*Real.pi/180)^3 ≤ 0.3735006^3 := pow_le_pow_left₀ ht0 hthi 3
  have hc3lo : (0.3735003:ℝ)^3 ≤ (21.4*Real.pi/180)^3 :=
    pow_le_pow_left₀ (by norm_num) htlo 3
  have hc4hi : (21.4*Real.pi/180)^4 ≤ 0.3735006^4 := pow_le_pow_left₀ ht0 hthi 4
  have hc40 : (0:ℝ) ≤ (21.4*Real.pi/180)^4 := by positivity
  have hslo : (0.363802 : ℝ) ≤ Real.sin (21.4*Real.pi/180) := by
    have e1 : (0.3735006:ℝ)^3 = 0.052104341479453380216 := by norm_num
    have e2 : (0.3735006:ℝ)^4 = 0.0194610028051807251827041296 := by norm_num
    linarith
  have hshi : Real.sin (21.4*Real.pi/180) ≤ 0.365831 := by
    have e1 : (0.3735003:ℝ)^3 = 0.052104215927125845027 := by norm_num
    have e2 : (0.3735006:ℝ)^4 = 0.0194610028051807251827041296 := by norm_num
    linarith
  have hsqlo : (0.363802:ℝ)^2 ≤ (Real.sin (21.4*Real.pi/180))^2 :=
    pow_le_pow_left₀ (by norm_num) hslo 2
  have hsqhi : (Real.sin (21.4*Real.pi/180))^2 ≤ (0.365831:ℝ)^2 :=
    pow_le_pow_left₀ (by linarith) hshi 2
  have hcos2 : Real.cos (2*(21.4*Real.pi/180))
      = 1 - 2*(Real.sin (21.4*Real.pi/180))^2 := by
    rw [Real.cos_two_mul, Real.cos_sq']
    ring
  have hu0 : (0:ℝ) ≤ 0.2*Real.pi/180 := by linarith
  have hu1 : 0.2*Real.pi/180 ≤ 1 := by linarith
  have huhi : 0.2*Real.pi/180 ≤ 0.0034907 := by linarith
  have huhi9 : 0.2*Real.pi/180 ≤ 0.003490659 := by linarith
  obtain ⟨hv1, hv2⟩ := sin_num_bounds (0.2*Real.pi/180) hu0 hu1
  have hu3 : (0:ℝ) ≤ (0.2*Real.pi/180)^3 := by positivity
  have hu4hi : (0.2*Real.pi/180)^4 ≤ 0.0034907^4 := pow_le_pow_left₀ hu0 huhi 4
  have hu40 : (0:ℝ) ≤ (0.2*Real.pi/180)^4 := by positivity
  have hsuhi : Real.sin (0.2*Real.pi/180) ≤ 0.0034907 := by
    have e2 : (0.0034907:ℝ)^4 = 0.0000000001484738957614825201 := by norm_num
    linarith
  have hsub := Real.cos_sub (66.5*Real.pi/180) (23.7*Real.pi/180)
  have hadd := Real.cos_add (66.5*Real.pi/180) (23.7*Real.pi/180)
  rw [show (66.5*Real.pi/180 : ℝ) - 23.7*Real.pi/180 = 2*(21.4*Real.pi/180) from
    by ring, hcos2] at hsub
  rw [show (66.5*Real.pi/180 : ℝ) + 23.7*Real.pi/180 = 0.2*Real.pi/180 + Real.pi/2 from
    by ring, Real.cos_add_pi_div_two] at hadd
  have e3 : (0.363802:ℝ)^2 = 0.132351895204 := by norm_num
  have e4 : (0.365831:ℝ)^2 = 0.133832320561 := by norm_num
  constructor <;> linarith

/-- The declination `arcsin(sin E * sin lam)` has sine at most `sin E` in
absolute value and cosine at least `cos 23.7°` whenever `0 ≤ E ≤ 23.7°`. -/
theorem arcsin_prod_bounds (E lam : ℝ) (hE0 : 0 ≤ E)
    (hEB : E ≤ 23.7*Real.pi/180) :
    |Real.sin (Real.arcsin (Real.sin E * Real.sin lam))|
        ≤ Real.sin (23.7*Real.pi/180) ∧
      Real.cos (23.7*Real.pi/180)
        ≤ Real.cos (Real.arcsin (Real.sin E * Real.sin lam)) := by
  have hp1 := Real.pi_gt_d6
  have hp2 := Real.pi_lt_d6
  have hB2 : (23.7:ℝ)*Real.pi/180 ≤ Real.pi/2 := by linarith
  have hEpi : E ≤ Real.pi := by linarith
  have hsinE0 : 0 ≤ Real.sin E := Real.sin_nonneg_of_nonneg_of_le_pi hE0 hEpi
  have hsinEB : Real.sin E ≤ Real.sin (23.7*Real.pi/180) := by
    have h := sin_abs_mono E (23.7*Real.pi/180)
      (by rw [abs_of_nonneg hE0]; exact hEB) hB2
    rwa [abs_of_nonneg hsinE0] at h
  have hsinB0 : 0 ≤ Real.sin (23.7*Real.pi/180) :=
    Real.sin_nonneg_of_nonneg_of_le_pi (by linarith) (by linarith)
  have hy : |Real.sin E * Real.sin lam| ≤ Real.sin (23.7*Real.pi/180) := by
    rw [abs_mul]
    calc |Real.sin E| * |Real.sin lam| ≤ Real.sin (23.7*Real.pi/180) * 1 :=
        mul_le_mul (by rwa [abs_of_nonneg hsinE0]) (Real.abs_sin_le_one lam)
          (abs_nonneg _) hsinB0
      _ = _ := mul_one _
  have hy1 : |Real.sin E * Real.sin lam| ≤ 1 := hy.trans (Real.sin_le_one _)
  obtain ⟨hyl, hyh⟩ := abs_le.mp hy1
  constructor
  · rw [Real.sin_arcsin hyl hyh]
    exact hy
  · rw [Real.cos_arcsin]
    have hcB0 : 0 ≤ Real.cos (23.7*Real.pi/180) :=
      Real.cos_nonneg_of_mem_Icc ⟨by linarith, hB2⟩
    have hsq : (Real.sin E * Real.sin lam)^2 ≤ (Real.sin (23.7*Real.pi/180))^2 := by
      rw [← sq_abs]
      exact pow_le_pow_left₀ (abs_nonneg _) hy 2
    have h1s : (Real.cos (23.7*Real.pi/180))^2
        ≤ 1 - (Real.sin E * Real.sin lam)^2 := by
      have := Real.sin_sq_add_cos_sq (23.7*Real.pi/180)
      linarith
    calc Real.cos (23.7*Real.pi/180)
        = Real.sqrt ((Real.cos (23.7*Real.pi/180))^2) := (Real.sqrt_sq hcB0).symm
      _ ≤ _ := Real.sqrt_le_sqrt h1s

/-- Bounds on the declination produced by `solar_coords` over the relevant
Julian-century range: its sine is at most `sin 23.7°` in absolute value and
its cosine at least `cos 23.7°`. -/
theorem dec_bounds (jc : ℝ) (h1 : -4.21 ≤ jc) (h2 : jc ≤ 80.04) :
    |Real.sin ((solar_coords jc).2.2.1)| ≤ Real.sin (23.7*Real.pi/180) ∧
      Real.cos (23.7*Real.pi/180) ≤ Real.cos ((solar_coords jc).2.2.1) := by
  have hp1 := Real.pi_gt_d6
  obtain ⟨he1, he2⟩ := epsDeg_bounds jc h1 h2
  obtain ⟨L, hL⟩ : ∃ L, (solar_coords jc).2.2.1
      = Real.arcsin (Real.sin (deg2rad (23.439291
          - jc*(0.0130042 + jc*(1.64e-7 - 5.04e-7*jc)))) * Real.sin L) :=
    ⟨_, rfl⟩
  rw [hL,
    show deg2rad (23.439291 - jc*(0.0130042 + jc*(1.64e-7 - 5.04e-7*jc)))
      = (23.439291 - jc*(0.0130042 + jc*(1.64e-7 - 5.04e-7*jc))) * Real.pi/180 from
      by unfold deg2rad; ring]
  apply arcsin_prod_bounds
  · have hpos : (0:ℝ)
        < (23.439291 - jc*(0.0130042 + jc*(1.64e-7 - 5.04e-7*jc))) * Real.pi :=
      mul_pos (by linarith) Real.pi_pos
    linarith
  · have hfac : (0:ℝ)
        ≤ (23.7 - (23.439291 - jc*(0.0130042 + jc*(1.64e-7 - 5.04e-7*jc)))) * Real.pi :=
      mul_nonneg (by linarith) (le_of_lt Real.pi_pos)
    nlinarith [hfac]

/-- Two-sided numeric bounds on `sin(0.833°)`, the refraction altitude. -/
theorem sin_alt_bounds :
    (0.0145380 : ℝ) ≤ Real.sin (0.833*Real.pi/180) ∧
      Real.sin (0.833*Real.pi/180) ≤ 0.0145381 := by
  have hp1 := Real.pi_gt_d6
  have hp2 := Real.pi_lt_d6
  have hx0 : (0:ℝ) ≤ 0.833*Real.pi/180 := by linarith
  have hx1 : 0.833*Real.pi/180 ≤ 1 := by linarith
  obtain ⟨hsa1, hsa2⟩ := sin_num_bounds (0.833*Real.pi/180) hx0 hx1
  have hxlo : (0.01453858:ℝ) ≤ 0.833*Real.pi/180 := by linarith
  have hxhi : 0.833*Real.pi/180 ≤ 0.0145386 := by linarith
  have hx3hi : (0.833*Real.pi/180)^3 ≤ 0.0145386^3 := pow_le_pow_left₀ hx0 hxhi 3
  have hx3lo : (0.01453858:ℝ)^3 ≤ (0.833*Real.pi/180)^3 :=
    pow_le_pow_left₀ (by norm_num) hxlo 3
  have hx4hi : (0.833*Real.pi/180)^4 ≤ 0.0145386^4 := pow_le_pow_left₀ hx0 hxhi 4
  have hx40 : (0:ℝ) ≤ (0.833*Real.pi/180)^4 := by positivity
  have e3 : (0.0145386:ℝ)^3 = 0.000003073036820772456 := by norm_num
  have e4 : (0.0145386:ℝ)^4 = 0.0000000446776531224824288016 := by norm_num
  have e5 : (0.01453858:ℝ)^3 = 0.000003073024138536504712 := by norm_num
  constructor <;> linarith

/-- The hour angle returned for the default altitude -0.833° is defined and
lies in `[0.19, π]` whenever `|lat| ≤ 66.5°` and the declination satisfies
the 23.7° bounds of `dec_bounds`. -/
theorem hour_angle_bounded (lat_rad dec : ℝ)
    (hlat : |lat_rad| ≤ 66.5*Real.pi/180)
    (hdec_s : |Real.sin dec| ≤ Real.sin (23.7*Real.pi/180))
    (hdec_c : Real.cos (23.7*Real.pi/180) ≤ Real.cos dec) :
    0.19 ≤ hour_angle lat_rad dec (-0.833) ∧
      hour_angle lat_rad dec (-0.833) ≤ Real.pi := by
  have hp1 := Real.pi_gt_d6
  have hp2 := Real.pi_lt_d6
  have hA2 : (66.5:ℝ)*Real.pi/180 ≤ Real.pi/2 := by linarith
  have hApi : (66.5:ℝ)*Real.pi/180 ≤ Real.pi := by linarith
  have hsinlat : |Real.sin lat_rad| ≤ Real.sin (66.5*Real.pi/180) :=
    sin_abs_mono _ _ hlat hA2
  have hcoslat : Real.cos (66.5*Real.pi/180) ≤ Real.cos lat_rad :=
    cos_abs_mono _ _ hlat hApi
  obtain ⟨hAB1, hAB2⟩ := sinAB_cosAB_bounds
  have hsinA0 : 0 ≤ Real.sin (66.5*Real.pi/180) := le_trans (abs_nonneg _) hsinlat
  have hcosA0 : 0 ≤ Real.cos (66.5*Real.pi/180) :=
    Real.cos_nonneg_of_mem_Icc ⟨by linarith, hA2⟩
  have hcosB0 : 0 ≤ Real.cos (23.7*Real.pi/180) :=
    Real.cos_nonneg_of_mem_Icc ⟨by linarith, by linarith⟩
  have hden : (0.3644:ℝ) ≤ Real.cos lat_rad * Real.cos dec := by
    calc (0.3644:ℝ) ≤ Real.cos (66.5*Real.pi/180) * Real.cos (23.7*Real.pi/180) := hAB2
      _ ≤ Real.cos lat_rad * Real.cos dec :=
        mul_le_mul hcoslat hdec_c hcosB0 (le_trans hcosA0 hcoslat)
  have hprod : |Real.sin lat_rad * Real.sin dec| ≤ 0.3695 := by
    rw [abs_mul]
    calc |Real.sin lat_rad| * |Real.sin dec|
        ≤ Real.sin (66.5*Real.pi/180) * Real.sin (23.7*Real.pi/180) :=
          mul_le_mul hsinlat hdec_s (abs_nonneg _) hsinA0
      _ ≤ 0.3695 := hAB1
  have halt : deg2rad (-0.833) = -(0.833*Real.pi/180) := by
    unfold deg2rad
    ring
  have hsinalt : Real.sin (deg2rad (-0.833)) ≤ -0.0145 := by
    rw [halt, Real.sin_neg]
    have := sin_alt_bounds.1
    linarith
  have hnum : Real.sin (deg2rad (-0.833)) - Real.sin lat_rad * Real.sin dec ≤ 0.355 := by
    have h1 := abs_le.mp hprod
    linarith [h1.1]
  have hcosH : (Real.sin (deg2rad (-0.833)) - Real.sin lat_rad * Real.sin dec) /
      (Real.cos lat_rad * Real.cos dec) ≤ 0.98 := by
    rw [div_le_iff₀ (by linarith)]
    nlinarith
  have hdef : hour_angle lat_rad dec (-0.833) = Real.arccos (min 1.0 (max (-1.0)
      ((Real.sin (deg2rad (-0.833)) - Real.sin lat_rad * Real.sin dec) /
        (Real.cos lat_rad * Real.cos dec)))) := rfl
  rw [hdef]
  refine ⟨?_, Real.arccos_le_pi _⟩
  apply arccos_ge_of_arg_le
  · norm_num
  · linarith
  · exact le_min (by norm_num) (le_trans (by norm_num) (le_max_left _ _))
  · have hclamp : min 1.0 (max (-1.0)
        ((Real.sin (deg2rad (-0.833)) - Real.sin lat_rad * Real.sin dec) /
          (Real.cos lat_rad * Real.cos dec))) ≤ 0.98 :=
      le_trans (min_le_right _ _) (max_le (by norm_num) hcosH)
    have hc19 := (cos_num_bounds 0.19 (by norm_num) (by norm_num)).1
    have e2 : (0.19:ℝ)^2 = 0.0361 := by norm_num
    have e4 : (0.19:ℝ)^4 = 0.00130321 := by norm_num
    linarith

/-- Rata-die window of valid dates with years 1583..9998. -/
theorem rdOf_year_bounds (d : Date) (h : d.valid) (h1 : 1583 ≤ d.year)
    (h2 : d.year ≤ 9998) : 577814 ≤ rdOf d ∧ rdOf d ≤ 3651695 := by
  obtain ⟨y, m, dd⟩ := d
  obtain ⟨hy1, hy2, hm1, hm2, hd1, hd2⟩ := h
  simp only at hy1 hy2 hm1 hm2 hd1 hd2 h1 h2
  have hdm31 : daysInMonth y m ≤ 31 := by
    unfold daysInMonth
    rcases Bool.eq_false_or_eq_true (isLeap y) with hb | hb <;> rw [hb] <;>
      split_ifs <;> omega
  have hdbm : 0 ≤ daysBeforeMonth (isLeap y) m ∧ daysBeforeMonth (isLeap y) m ≤ 335 := by
    unfold daysBeforeMonth
    rcases Bool.eq_false_or_eq_true (isLeap y) with hb | hb <;> rw [hb] <;>
      interval_cases m <;> norm_num
  unfold rdOf
  dsimp only
  omega

set_option maxHeartbeats 1000000 in
/-- Claim C1 (amended): for every valid date with year 1583..9998, every
latitude strictly between -66.5° and 66.5°, every longitude and every
fixed-offset time zone of at most ±(24h - 1s), `sunrise_sunset_local`
returns a pair of local timestamps with sunrise strictly before sunset.
(As stated over every calendar date the claim fails at the edge of the
`datetime` range: see the 9999-12-31 counterexample.) -/
theorem sunrise_before_sunset_nonpolar (d : Date) (lat_deg lon_deg : ℝ)
    (offset : ℤ) (hv : d.valid) (hy1 : 1583 ≤ d.year) (hy2 : d.year ≤ 9998)
    (hlat : |lat_deg| < 66.5) (hoff : |offset| ≤ 86399) :
    ∃ p : ℤ × ℤ, sunrise_sunset_local d lat_deg lon_deg offset = some p ∧
      p.1 < p.2 := by
  have hp1 := Real.pi_gt_d6
  have hp2 := Real.pi_lt_d6
  obtain ⟨hrd1, hrd2⟩ := rdOf_year_bounds d hv hy1 hy2
  have hjdR : ((julian_day d : ℚ) : ℝ) = (rdOf d : ℝ) + 1721424.5 := by
    rw [julian_day_eq_jdMidnight d hv]
    unfold jdMidnight
    push_cast
    ring
  have hrdR1 : (577814 : ℝ) ≤ (rdOf d : ℝ) := by exact_mod_cast hrd1
  have hrdR2 : (rdOf d : ℝ) ≤ 3651695 := by exact_mod_cast hrd2
  have hjcv : jd_to_jcent ((julian_day d : ℚ) : ℝ)
      = ((rdOf d : ℝ) + 1721424.5 - 2451545.0)/36525.0 := by
    unfold jd_to_jcent
    rw [hjdR]
  have hjc1 : -4.21 ≤ jd_to_jcent ((julian_day d : ℚ) : ℝ) := by
    rw [hjcv, le_div_iff₀ (by norm_num)]
    linarith
  have hjc2 : jd_to_jcent ((julian_day d : ℚ) : ℝ) ≤ 80.04 := by
    rw [hjcv, div_le_iff₀ (by norm_num)]
    linarith
  obtain ⟨hdecs, hdecc⟩ := dec_bounds (jd_to_jcent ((julian_day d : ℚ) : ℝ)) hjc1 hjc2
  have hlatr : |deg2rad lat_deg| ≤ 66.5*Real.pi/180 := by
    unfold deg2rad
    have h1 : |lat_deg * Real.pi / 180.0| = |lat_deg| * Real.pi / 180 := by
      rw [abs_div, abs_mul, abs_of_pos Real.pi_pos]
      norm_num
    rw [h1]
    have h2 : (0:ℝ) ≤ (66.5 - |lat_deg|) * Real.pi :=
      mul_nonneg (by linarith) (le_of_lt Real.pi_pos)
    nlinarith
  obtain ⟨H, hHdef⟩ : ∃ H, H = hour_angle (deg2rad lat_deg)
      ((solar_coords (jd_to_jcent ((julian_day d : ℚ) : ℝ))).2.2.1) (-0.833) :=
    ⟨_, rfl⟩
  obtain ⟨hH019, hHpi⟩ := hour_angle_bounded (deg2rad lat_deg)
    ((solar_coords (jd_to_jcent ((julian_day d : ℚ) : ℝ))).2.2.1) hlatr hdecs hdecc
  rw [← hHdef] at hH019 hHpi
  have hJt := solar_transit_near ((julian_day d : ℚ) : ℝ) (deg2rad (-lon_deg))
  rw [abs_le] at hJt
  obtain ⟨hJt1, hJt2⟩ := hJt
  have hH2pi1 : (0.0302:ℝ) ≤ H/(2*Real.pi) := by
    rw [le_div_iff₀ (by positivity)]
    nlinarith
  have hH2pi2 : H/(2*Real.pi) ≤ 1/2 := by
    rw [div_le_iff₀ (by positivity)]
    nlinarith
  have hposr : (0:ℝ) ≤ solar_transit_jd ((julian_day d : ℚ) : ℝ) (deg2rad (-lon_deg))
      - H/(2*Real.pi) + 0.5 := by
    nlinarith
  have hZr1 : rdOf d + 1721423
      ≤ ⌊solar_transit_jd ((julian_day d : ℚ) : ℝ) (deg2rad (-lon_deg))
          - H/(2*Real.pi) + 0.5⌋ := by
    apply Int.le_floor.mpr
    push_cast
    nlinarith
  have hZr2 : ⌊solar_transit_jd ((julian_day d : ℚ) : ℝ) (deg2rad (-lon_deg))
      - H/(2*Real.pi) + 0.5⌋ ≤ rdOf d + 1721426 := by
    have h1 : ⌊solar_transit_jd ((julian_day d : ℚ) : ℝ) (deg2rad (-lon_deg))
        - H/(2*Real.pi) + 0.5⌋ < rdOf d + 1721427 := by
      apply Int.floor_lt.mpr
      push_cast
      nlinarith
    omega
  obtain ⟨tsr, htsr, habsr⟩ := jd_to_utc_approx
    (solar_transit_jd ((julian_day d : ℚ) : ℝ) (deg2rad (-lon_deg)) - H/(2*Real.pi))
    (⌊solar_transit_jd ((julian_day d : ℚ) : ℝ) (deg2rad (-lon_deg))
      - H/(2*Real.pi) + 0.5⌋)
    (by rw [pyInt_of_nonneg _ hposr]) (by omega) (by omega)
    (by intro hcon; omega)
  rw [abs_le] at habsr
  obtain ⟨habsr1, habsr2⟩ := habsr
  have hposs : (0:ℝ) ≤ solar_transit_jd ((julian_day d : ℚ) : ℝ) (deg2rad (-lon_deg))
      + H/(2*Real.pi) + 0.5 := by
    nlinarith
  have hZs1 : rdOf d + 1721424
      ≤ ⌊solar_transit_jd ((julian_day d : ℚ) : ℝ) (deg2rad (-lon_deg))
          + H/(2*Real.pi) + 0.5⌋ := by
    apply Int.le_floor.mpr
    push_cast
    nlinarith
  have hZs2 : ⌊solar_transit_jd ((julian_day d : ℚ) : ℝ) (deg2rad (-lon_deg))
      + H/(2*Real.pi) + 0.5⌋ ≤ rdOf d + 1721427 := by
    have h1 : ⌊solar_transit_jd ((julian_day d : ℚ) : ℝ) (deg2rad (-lon_deg))
        + H/(2*Real.pi) + 0.5⌋ < rdOf d + 1721428 := by
      apply Int.floor_lt.mpr
      push_cast
      nlinarith
    omega
  obtain ⟨tss, htss, habss⟩ := jd_to_utc_approx
    (solar_transit_jd ((julian_day d : ℚ) : ℝ) (deg2rad (-lon_deg)) + H/(2*Real.pi))
    (⌊solar_transit_jd ((julian_day d : ℚ) : ℝ) (deg2rad (-lon_deg))
      + H/(2*Real.pi) + 0.5⌋)
    (by rw [pyInt_of_nonneg _ hposs]) (by omega) (by omega)
    (by intro hcon; omega)
  rw [abs_le] at habss
  obtain ⟨habss1, habss2⟩ := habss
  obtain ⟨hoff1, hoff2⟩ := abs_le.mp hoff
  have hoffR1 : (-86399 : ℝ) ≤ (offset : ℝ) := by exact_mod_cast hoff1
  have hoffR2 : (offset : ℝ) ≤ 86399 := by exact_mod_cast hoff2
  have hrng_r : 86400 ≤ tsr + offset ∧ tsr + offset ≤ 86400 * 3652059 + 86399 := by
    constructor
    · have h1 : (86400:ℝ) ≤ ((tsr + offset : ℤ) : ℝ) := by
        push_cast
        nlinarith
      exact_mod_cast h1
    · have h1 : ((tsr + offset : ℤ) : ℝ) ≤ 86400 * 3652059 + 86399 := by
        push_cast
        nlinarith
      exact_mod_cast h1
  have hrng_s : 86400 ≤ tss + offset ∧ tss + offset ≤ 86400 * 3652059 + 86399 := by
    constructor
    · have h1 : (86400:ℝ) ≤ ((tss + offset : ℤ) : ℝ) := by
        push_cast
        nlinarith
      exact_mod_cast h1
    · have h1 : ((tss + offset : ℤ) : ℝ) ≤ 86400 * 3652059 + 86399 := by
        push_cast
        nlinarith
      exact_mod_cast h1
  refine ⟨(tsr + offset, tss + offset), ?_, ?_⟩
  · rw [sunrise_sunset_local_eq]
    rw [← hHdef, rad2deg_div360 H, htsr]
    dsimp only
    rw [if_pos hrng_r, htss]
    dsimp only
    rw [if_pos hrng_s]
  · have h1 : ((tsr : ℤ) : ℝ) < ((tss : ℤ) : ℝ) := by
      nlinarith
    have h2 : tsr < tss := by exact_mod_cast h1
    omega

/-- Witness for the amended claim C1 at the DGFC site (2023-04-18,
latitude 5.4139°, longitude 118.0385°, UTC+8). -/
theorem sunrise_before_sunset_nonpolar_witness :
    ∃ p : ℤ × ℤ,
      sunrise_sunset_local ⟨2023, 4, 18⟩ 5.4139 118.0385 28800 = some p ∧
        p.1 < p.2 :=
  sunrise_before_sunset_nonpolar ⟨2023, 4, 18⟩ 5.4139 118.0385 28800
    (by decide) (by decide) (by decide)
    (by rw [abs_lt]; constructor <;> norm_num) (by decide)

set_option maxHeartbeats 800000 in
/-- Window of the clamped hour angle at latitude 0 for the 9999-12-31
counterexample: with `cos dec` in `[0.9129, 1]` the clamp is the identity
and `H/(2π)` lies in `[0.252307, 0.2525466]`. -/
theorem counterexample_H_window (c : ℝ) (h1 : (0.9129:ℝ) ≤ c) (h2 : c ≤ 1) :
    min 1.0 (max (-1.0) ((-Real.sin (0.833*Real.pi/180))/c))
        = (-Real.sin (0.833*Real.pi/180))/c ∧
      (0.252307 : ℝ) ≤ Real.arccos ((-Real.sin (0.833*Real.pi/180))/c) / (2*Real.pi) ∧
      Real.arccos ((-Real.sin (0.833*Real.pi/180))/c) / (2*Real.pi) ≤ 0.2525466 := by
  have hp1 := Real.pi_gt_d6
  have hp2 := Real.pi_lt_d6
  obtain ⟨hsalt1, hsalt2⟩ := sin_alt_bounds
  have htlo : (-0.015927 : ℝ) ≤ (-Real.sin (0.833*Real.pi/180))/c := by
    rw [le_div_iff₀ (by linarith)]
    nlinarith
  have hthi : (-Real.sin (0.833*Real.pi/180))/c ≤ -0.0145380 := by
    rw [div_le_iff₀ (by linarith)]
    nlinarith
  have hclamp : min 1.0 (max (-1.0) ((-Real.sin (0.833*Real.pi/180))/c))
      = (-Real.sin (0.833*Real.pi/180))/c := by
    rw [max_eq_right (by linarith), min_eq_right (by linarith)]
  obtain ⟨hs145a, hs145b⟩ := sin_num_bounds 0.0145 (by norm_num) (by norm_num)
  obtain ⟨hs16a, hs16b⟩ := sin_num_bounds 0.016 (by norm_num) (by norm_num)
  have e145_3 : (0.0145:ℝ)^3 = 0.000003048625 := by norm_num
  have e145_4 : (0.0145:ℝ)^4 = 0.0000000442050625 := by norm_num
  have e16_3 : (0.016:ℝ)^3 = 0.000004096 := by norm_num
  have e16_4 : (0.016:ℝ)^4 = 0.000000065536 := by norm_num
  have hH1 : Real.pi/2 + 0.0145 ≤ Real.arccos ((-Real.sin (0.833*Real.pi/180))/c) := by
    apply arccos_ge_of_arg_le
    · linarith
    · linarith
    · linarith
    · rw [show Real.pi/2 + 0.0145 = 0.0145 + Real.pi/2 from by ring,
        Real.cos_add_pi_div_two]
      linarith
  have hH2 : Real.arccos ((-Real.sin (0.833*Real.pi/180))/c) ≤ Real.pi/2 + 0.016 := by
    apply arccos_le_of_arg_ge
    · linarith
    · linarith
    · linarith
    · rw [show Real.pi/2 + 0.016 = 0.016 + Real.pi/2 from by ring,
        Real.cos_add_pi_div_two]
      linarith
  refine ⟨hclamp, ?_, ?_⟩
  · rw [le_div_iff₀ (by positivity)]
    linarith
  · rw [div_le_iff₀ (by positivity)]
    linarith

set_option maxHeartbeats 1600000 in
/-- Counterexample to claim C1 as stated: on the last representable date
9999-12-31 at latitude 0 (well inside ±66.5°), longitude 32.724° and the
valid fixed offset +14h, converting the computed sunset to local time
overflows the `datetime` range, so `sunrise_sunset_local` raises
`OverflowError` (returns no pair at all) instead of an ordered pair. -/
theorem sunrise_sunset_overflow_9999 :
    sunrise_sunset_local ⟨9999, 12, 31⟩ 0 32.724 50400 = none := by
  have hp1 := Real.pi_gt_d6
  have hp2 := Real.pi_lt_d6
  have hjdR : ((julian_day ⟨9999, 12, 31⟩ : ℚ) : ℝ) = 5373483.5 := by
    rw [julian_day_eq_jdMidnight _ (by decide)]
    unfold jdMidnight
    rw [show rdOf ⟨9999, 12, 31⟩ = 3652059 from by decide]
    norm_num
  have hjcv : jd_to_jcent ((julian_day ⟨9999, 12, 31⟩ : ℚ) : ℝ)
      = (5373483.5 - 2451545.0)/36525.0 := by
    unfold jd_to_jcent
    rw [hjdR]
  have hjc1 : -4.21 ≤ jd_to_jcent ((julian_day ⟨9999, 12, 31⟩ : ℚ) : ℝ) := by
    rw [hjcv]
    norm_num
  have hjc2 : jd_to_jcent ((julian_day ⟨9999, 12, 31⟩ : ℚ) : ℝ) ≤ 80.04 := by
    rw [hjcv]
    norm_num
  obtain ⟨hdecs, hdecc⟩ :=
    dec_bounds (jd_to_jcent ((julian_day ⟨9999, 12, 31⟩ : ℚ) : ℝ)) hjc1 hjc2
  have hcB : (0.9129:ℝ) ≤ Real.cos (23.7*Real.pi/180) := by
    have hb0 : (0:ℝ) ≤ 23.7*Real.pi/180 := by linarith
    have hb1 : 23.7*Real.pi/180 ≤ 1 := by linarith
    obtain ⟨hc1, hc2⟩ := cos_num_bounds (23.7*Real.pi/180) hb0 hb1
    have hbhi : 23.7*Real.pi/180 ≤ 0.41364308 := by linarith
    have h2 : (23.7*Real.pi/180)^2 ≤ 0.41364308^2 := pow_le_pow_left₀ hb0 hbhi 2
    have h4 : (23.7*Real.pi/180)^4 ≤ 0.41364308^4 := pow_le_pow_left₀ hb0 hbhi 4
    have e2 : (0.41364308:ℝ)^2 = 0.1711005976318864 := by norm_num
    have e4 : (0.41364308:ℝ)^4 = 0.02927541450998868995164202250496 := by norm_num
    linarith
  have hcdec : (0.9129:ℝ)
      ≤ Real.cos ((solar_coords (jd_to_jcent ((julian_day ⟨9999, 12, 31⟩ : ℚ) : ℝ))).2.2.1) :=
    le_trans hcB hdecc
  have hcdec1 : Real.cos ((solar_coords (jd_to_jcent ((julian_day ⟨9999, 12, 31⟩ : ℚ) : ℝ))).2.2.1) ≤ 1 :=
    Real.cos_le_one _
  have hd0 : deg2rad 0 = 0 := by
    unfold deg2rad
    ring
  have halt : deg2rad (-0.833) = -(0.833*Real.pi/180) := by
    unfold deg2rad
    ring
  have htval : (Real.sin (deg2rad (-0.833)) - Real.sin (deg2rad 0)
        * Real.sin ((solar_coords (jd_to_jcent ((julian_day ⟨9999, 12, 31⟩ : ℚ) : ℝ))).2.2.1)) /
      (Real.cos (deg2rad 0)
        * Real.cos ((solar_coords (jd_to_jcent ((julian_day ⟨9999, 12, 31⟩ : ℚ) : ℝ))).2.2.1))
      = (-Real.sin (0.833*Real.pi/180)) /
        Real.cos ((solar_coords (jd_to_jcent ((julian_day ⟨9999, 12, 31⟩ : ℚ) : ℝ))).2.2.1) := by
    rw [hd0, Real.sin_zero, Real.cos_zero, zero_mul, one_mul, sub_zero, halt,
      Real.sin_neg]
  obtain ⟨hclamp, hH2pi_lo, hH2pi_hi⟩ := counterexample_H_window
    (Real.cos ((solar_coords (jd_to_jcent ((julian_day ⟨9999, 12, 31⟩ : ℚ) : ℝ))).2.2.1))
    hcdec hcdec1
  have hHval : hour_angle (deg2rad 0)
      ((solar_coords (jd_to_jcent ((julian_day ⟨9999, 12, 31⟩ : ℚ) : ℝ))).2.2.1) (-0.833)
      = Real.arccos ((-Real.sin (0.833*Real.pi/180)) /
          Real.cos ((solar_coords (jd_to_jcent ((julian_day ⟨9999, 12, 31⟩ : ℚ) : ℝ))).2.2.1)) := by
    have hdef : hour_angle (deg2rad 0)
        ((solar_coords (jd_to_jcent ((julian_day ⟨9999, 12, 31⟩ : ℚ) : ℝ))).2.2.1) (-0.833)
        = Real.arccos (min 1.0 (max (-1.0)
            ((Real.sin (deg2rad (-0.833)) - Real.sin (deg2rad 0)
                * Real.sin ((solar_coords (jd_to_jcent ((julian_day ⟨9999, 12, 31⟩ : ℚ) : ℝ))).2.2.1)) /
              (Real.cos (deg2rad 0)
                * Real.cos ((solar_coords (jd_to_jcent ((julian_day ⟨9999, 12, 31⟩ : ℚ) : ℝ))).2.2.1))))) := rfl
    rw [hdef, htval, hclamp]
  have hlw : deg2rad (-32.724) / (2*Real.pi) = -32.724/360 := by
    unfold deg2rad
    rw [div_div, div_eq_div_iff (by positivity) (by norm_num)]
    ring
  have hu : ((julian_day ⟨9999, 12, 31⟩ : ℚ) : ℝ) - 2451545.0009
      - deg2rad (-32.724)/(2*Real.pi) = 2921938.59 := by
    rw [hjdR, hlw]
    norm_num
  have hn : pyRound ((2921938.59:ℝ)) = 2921939 := by
    have hfl : ⌊(2921938.59:ℝ)⌋ = 2921938 := by
      rw [Int.floor_eq_iff]
      norm_num
    unfold pyRound
    rw [hfl]
    norm_num
  obtain ⟨u, v, huv⟩ : ∃ u v : ℝ,
      solar_transit_jd ((julian_day ⟨9999, 12, 31⟩ : ℚ) : ℝ) (deg2rad (-32.724))
        = 2451545.0009 + deg2rad (-32.724)/(2*Real.pi)
          + (pyRound (((julian_day ⟨9999, 12, 31⟩ : ℚ) : ℝ) - 2451545.0009
              - deg2rad (-32.724)/(2*Real.pi)) : ℝ)
          + 0.0053*Real.sin u - 0.0069*Real.sin (2*v) := ⟨_, _, rfl⟩
  rw [hu, hn, hlw] at huv
  have hsu1 := Real.neg_one_le_sin u
  have hsu2 := Real.sin_le_one u
  have hsv1 := Real.neg_one_le_sin (2*v)
  have hsv2 := Real.sin_le_one (2*v)
  have hJt1 : (5373483.8978 : ℝ)
      ≤ solar_transit_jd ((julian_day ⟨9999, 12, 31⟩ : ℚ) : ℝ) (deg2rad (-32.724)) := by
    rw [huv]
    push_cast
    linarith
  have hJt2 : solar_transit_jd ((julian_day ⟨9999, 12, 31⟩ : ℚ) : ℝ) (deg2rad (-32.724))
      ≤ 5373483.9222 := by
    rw [huv]
    push_cast
    linarith
  have hposr : (0:ℝ) ≤ solar_transit_jd ((julian_day ⟨9999, 12, 31⟩ : ℚ) : ℝ) (deg2rad (-32.724))
      - Real.arccos ((-Real.sin (0.833*Real.pi/180)) /
          Real.cos ((solar_coords (jd_to_jcent ((julian_day ⟨9999, 12, 31⟩ : ℚ) : ℝ))).2.2.1))
        / (2*Real.pi) + 0.5 := by
    linarith
  have hZr : (5373484 : ℤ) = pyInt (solar_transit_jd ((julian_day ⟨9999, 12, 31⟩ : ℚ) : ℝ)
      (deg2rad (-32.724))
      - Real.arccos ((-Real.sin (0.833*Real.pi/180)) /
          Real.cos ((solar_coords (jd_to_jcent ((julian_day ⟨9999, 12, 31⟩ : ℚ) : ℝ))).2.2.1))
        / (2*Real.pi) + 0.5) := by
    rw [pyInt_of_nonneg _ hposr]
    symm
    rw [Int.floor_eq_iff]
    push_cast
    constructor
    · linarith
    · linarith
  obtain ⟨tsr, htsr, habsr⟩ := jd_to_utc_approx _ _ hZr (by norm_num) (by norm_num)
    (by
      intro _
      push_cast
      linarith)
  rw [abs_le] at habsr
  obtain ⟨habsr1, habsr2⟩ := habsr
  have hrng_r : 86400 ≤ tsr + 50400 ∧ tsr + 50400 ≤ 86400 * 3652059 + 86399 := by
    constructor
    · have h1 : (86400:ℝ) ≤ ((tsr + 50400 : ℤ) : ℝ) := by
        push_cast
        linarith
      exact_mod_cast h1
    · have h1 : ((tsr + 50400 : ℤ) : ℝ) ≤ 86400 * 3652059 + 86399 := by
        push_cast
        linarith
      exact_mod_cast h1
  have hposs : (0:ℝ) ≤ solar_transit_jd ((julian_day ⟨9999, 12, 31⟩ : ℚ) : ℝ) (deg2rad (-32.724))
      + Real.arccos ((-Real.sin (0.833*Real.pi/180)) /
          Real.cos ((solar_coords (jd_to_jcent ((julian_day ⟨9999, 12, 31⟩ : ℚ) : ℝ))).2.2.1))
        / (2*Real.pi) + 0.5 := by
    linarith
  have hZs : (5373484 : ℤ) = pyInt (solar_transit_jd ((julian_day ⟨9999, 12, 31⟩ : ℚ) : ℝ)
      (deg2rad (-32.724))
      + Real.arccos ((-Real.sin (0.833*Real.pi/180)) /
          Real.cos ((solar_coords (jd_to_jcent ((julian_day ⟨9999, 12, 31⟩ : ℚ) : ℝ))).2.2.1))
        / (2*Real.pi) + 0.5) := by
    rw [pyInt_of_nonneg _ hposs]
    symm
    rw [Int.floor_eq_iff]
    push_cast
    constructor
    · linarith
    · linarith
  obtain ⟨tss, htss, habss⟩ := jd_to_utc_approx _ _ hZs (by norm_num) (by norm_num)
    (by
      intro _
      push_cast
      linarith)
  rw [abs_le] at habss
  obtain ⟨habss1, habss2⟩ := habss
  have hbig : 86400 * 3652059 + 86399 < tss + 50400 := by
    have h1 : ((86400 * 3652059 + 86399 : ℤ) : ℝ) < ((tss + 50400 : ℤ) : ℝ) := by
      push_cast
      linarith
    exact_mod_cast h1
  rw [sunrise_sunset_local_eq]
  rw [hHval, rad2deg_div360, htsr]
  dsimp only
  rw [if_pos hrng_r, htss]
  dsimp only
  rw [if_neg (by omega)]

end SolarSpec
